import Mathlib

/-!
Pokemon-Game: battle resolution.

Shallow embedding of the battle logic of `src/components/BattleArena.js`: the damage
resolver `calculateDamage` (lines 38-85), the turn controller `performAttack`,
`handlePlayerAttack`, `handleOpponentAttack` (lines 189-265), the session construction
`fetchBattlePokemons`, `resetBattle`, `handlePlayerPokemonChange` and `getWinnerMessage`;
of the team roster of `src/App.js` and of the generation filter of
`src/components/Pokedex.js`, with the properties stated about them.

Modelling conventions:

* JavaScript numbers are modelled by exact rationals `ℚ`; `Math.floor` is `Int.floor`.
  The effectiveness multiplier only ever takes the values `0` and powers of two, which
  doubles represent exactly. The rounding of doubles is not modelled: no statement is
  made whose truth depends on it (numeric bounds that hold exactly but not after
  rounding, such as `0.85 + r * 0.15 < 1`).
* Each `Math.random()` call site is a parameter holding the value drawn there, a
  rational in `[0, 1)`: `accRoll` for the accuracy check (line 78) and `dmgRoll` for the
  damage roll (line 82).
* `null` / `undefined` is `Option.none`; the effectiveness strings are the constructors
  of `Effectiveness`.
* The type table `typeEffectivenessData` is an object keyed by type name; it is modelled
  by its lookup function `String → Option DamageRelations`.
-/

namespace PokemonGame

/-! ## Data model -/

/-- Named API resource `{ name, url }`; the code only ever reads `name`. -/
structure NamedResource where
  name : String
  deriving DecidableEq, Repr

/-- Entry of `pokemon.stats`: `{ base_stat, stat: { name } }`. -/
structure StatEntry where
  base_stat : ℚ
  stat : NamedResource
  deriving DecidableEq, Repr

/-- Entry of `pokemon.types`: `{ type: { name } }`. -/
structure TypeSlot where
  type : NamedResource
  deriving DecidableEq, Repr

/-- Hydrated move (result of `getMoveDetail`): `power` and `accuracy` are nullable. -/
structure Move where
  name : String
  power : Option ℚ
  accuracy : Option ℚ
  type : NamedResource
  deriving DecidableEq, Repr

/-- Combatant snapshot as built by `fetchBattlePokemons` (catalog data plus `currentHp`,
hydrated `moves` and `level`). -/
structure Pokemon where
  id : ℕ
  name : String
  stats : List StatEntry
  types : List TypeSlot
  moves : List Move
  level : ℚ
  currentHp : ℚ
  deriving DecidableEq, Repr

/-- The `damage_relations` of one attacking type, as stored in the type table. -/
structure DamageRelations where
  double_damage_to : List NamedResource
  half_damage_to : List NamedResource
  no_damage_to : List NamedResource
  deriving DecidableEq, Repr

/-- The object `typeEffectivenessData`, as its lookup by attacking type name. -/
abbrev TypeEffectivenessData := String → Option DamageRelations

/-- The strings used for the `effectiveness` field of the outcome. -/
inductive Effectiveness where
  | neutral
  | super_effective
  | not_very_effective
  | no_effect
  | miss
  deriving DecidableEq, Repr

/-- The object returned by `calculateDamage`: `{ damage, hit, effectiveness }`. -/
structure DamageResult where
  damage : ℤ
  hit : Bool
  effectiveness : Effectiveness
  deriving DecidableEq, Repr

/-! ## calculateDamage -/

/-- The stat lookup `stats.find(s => s.stat.name === name)?.base_stat || 1` (lines 41-42):
a missing entry and a falsy (zero) base stat both give `1`. -/
def baseStatOr1 (stats : List StatEntry) (name : String) : ℚ :=
  match stats.find? (fun s => s.stat.name == name) with
  | some s => if s.base_stat = 0 then 1 else s.base_stat
  | none => 1

/-- Line 44: `(((2 * level / 5 + 2) * power * (attack / defense)) / 50) + 2`. -/
def baseDamage (level power attackerAttack defenderDefense : ℚ) : ℚ :=
  (((2 * level / 5 + 2) * power * (attackerAttack / defenderDefense)) / 50) + 2

/-- The test `relations.some(rel => rel.name === defenderType)`. -/
def listsType (relations : List NamedResource) (defenderType : String) : Bool :=
  relations.any (fun rel => rel.name == defenderType)

/-- One iteration of the loop of lines 56-64, acting on `tempMultiplier`. -/
def multiplierStep (rel : DamageRelations) (tempMultiplier : ℚ) (defenderType : String) : ℚ :=
  if listsType rel.double_damage_to defenderType then tempMultiplier * 2
  else if listsType rel.half_damage_to defenderType then tempMultiplier * 0.5
  else if listsType rel.no_damage_to defenderType then tempMultiplier * 0
  else tempMultiplier

/-- Lines 55-65: `tempMultiplier` after the loop over `defenderTypes`, starting from 1. -/
def tempMultiplier (rel : DamageRelations) (defenderTypes : List String) : ℚ :=
  defenderTypes.foldl (multiplierStep rel) 1

/-- Lines 67-73 (with the initial value `'neutral'` of line 47): the message chosen for a
multiplier computed from a relation. -/
def effectivenessMessage (effectivenessMultiplier : ℚ) : Effectiveness :=
  if effectivenessMultiplier = 0 then Effectiveness.no_effect
  else if effectivenessMultiplier ≥ 2 then Effectiveness.super_effective
  else if effectivenessMultiplier ≤ 0.5 ∧ effectivenessMultiplier > 0 then
    Effectiveness.not_very_effective
  else Effectiveness.neutral

/-- Line 50: `defender.types.map(t => t.type.name)`. -/
def defenderTypes (defender : Pokemon) : List String :=
  defender.types.map (fun t => t.type.name)

/-- Lines 46-74: the pair `(effectivenessMultiplier, effectivenessMessage)` after the type
lookup; without a relation for the move's type both keep their initial values. -/
def typeMatchup (typeEffectivenessData : TypeEffectivenessData) (move : Move)
    (defender : Pokemon) : ℚ × Effectiveness :=
  match typeEffectivenessData move.type.name with
  | some attackerDamageRelations =>
    let m := tempMultiplier attackerDamageRelations (defenderTypes defender)
    (m, effectivenessMessage m)
  | none => (1, Effectiveness.neutral)

/-- The `effectivenessMultiplier` used on line 76. -/
def effectivenessMultiplier (typeEffectivenessData : TypeEffectivenessData) (move : Move)
    (defender : Pokemon) : ℚ :=
  (typeMatchup typeEffectivenessData move defender).1

/-- The condition of line 78, `move.accuracy && Math.random() * 100 > move.accuracy`:
a `null` or zero accuracy is falsy and skips the roll. -/
def accuracyCheckFails (move : Move) (accRoll : ℚ) : Bool :=
  match move.accuracy with
  | some accuracy => decide (accuracy ≠ 0) && decide (accRoll * 100 > accuracy)
  | none => false

/-- The factor `0.85 + Math.random() * 0.15` of line 82. -/
def rollFactor (dmgRoll : ℚ) : ℚ :=
  0.85 + dmgRoll * 0.15

/-- The function `calculateDamage` of lines 38-85. -/
def calculateDamage (attacker defender : Pokemon) (move : Option Move)
    (typeEffectivenessData : TypeEffectivenessData) (accRoll dmgRoll : ℚ) : DamageResult :=
  match move with
  | none => { damage := 0, hit := true, effectiveness := Effectiveness.neutral }
  | some move =>
    match move.power with
    | none => { damage := 0, hit := true, effectiveness := Effectiveness.neutral }
    | some power =>
      let attackerAttack := baseStatOr1 attacker.stats "attack"
      let defenderDefense := baseStatOr1 defender.stats "defense"
      let damage := baseDamage attacker.level power attackerAttack defenderDefense
      let matchup := typeMatchup typeEffectivenessData move defender
      let damage := damage * matchup.1
      if accuracyCheckFails move accRoll then
        { damage := 0, hit := false, effectiveness := Effectiveness.miss }
      else
        { damage := max 1 ⌊damage * rollFactor dmgRoll⌋, hit := true,
          effectiveness := matchup.2 }

/-- Line 195 of `performAttack`: `newDefenderHp = Math.max(0, defender.currentHp - damage)`. -/
def newDefenderHp (defender : Pokemon) (damage : ℤ) : ℚ :=
  max 0 (defender.currentHp - damage)

/-! ## Turn controller

The component state of `BattleArena` (the `useState` cells the battle logic touches) is
`BattleState`. A handler created by `useCallback` reads the state through the constants
of the render that created it, so it takes two states: the captured one, `c`, in which
its guards and arguments are evaluated, and the live one, `s`, to which its `set...`
calls are applied in order. For a handler invoked from the current render both are the
same state. A callback passed to `setTimeout` keeps the captured state of the call that
scheduled it and is a function of its own, to be applied to the state that is live when
the timer fires. -/

/-- The `type` of a battle-log entry. -/
inductive LogType where
  | miss
  | no_effect
  | super_effective
  | not_very_effective
  | neutral
  | fainted
  | info
  deriving DecidableEq, Repr

/-- Entry of `battleLog`: `{ message, type }`. -/
structure LogEntry where
  message : String
  type : LogType
  deriving DecidableEq, Repr

/-- The state cells `playerPokemon`, `opponentPokemon`, `battleLog`, `isPlayerTurn` and
`battleOver` (lines 90-97). -/
structure BattleState where
  playerPokemon : Option Pokemon
  opponentPokemon : Option Pokemon
  battleLog : List LogEntry
  isPlayerTurn : Bool
  battleOver : Bool
  deriving DecidableEq, Repr

/-- The two setters that `performAttack` receives as `setDefender`. -/
inductive Setter where
  | setPlayerPokemon
  | setOpponentPokemon
  deriving DecidableEq, Repr

/-- The state cell written by a setter. -/
def BattleState.cell (s : BattleState) : Setter → Option Pokemon
  | Setter.setPlayerPokemon => s.playerPokemon
  | Setter.setOpponentPokemon => s.opponentPokemon

/-- The functional update `setDefender(prev => ({ ...prev, currentHp: hp }))` of line 218.
The cell holds a combatant whenever an attack is resolved; for an empty cell the spread
would build an object that is no combatant snapshot, which the embedding leaves empty. -/
def BattleState.writeHp (s : BattleState) (setDefender : Setter) (hp : ℚ) : BattleState :=
  match setDefender with
  | Setter.setPlayerPokemon =>
    { s with playerPokemon := s.playerPokemon.map (fun prev => { prev with currentHp := hp }) }
  | Setter.setOpponentPokemon =>
    { s with opponentPokemon :=
        s.opponentPokemon.map (fun prev => { prev with currentHp := hp }) }

/-- The update `setBattleLog(prevLog => [...prevLog, entry])`. -/
def BattleState.appendLog (s : BattleState) (entry : LogEntry) : BattleState :=
  { s with battleLog := s.battleLog ++ [entry] }

/-- The expression `name.charAt(0).toUpperCase() + name.slice(1)` (ASCII names). -/
def capitalized (name : String) : String :=
  name.capitalize

/-- The nested conditional of line 217 giving the `type` of the action's log entry. -/
def actionLogType (effectiveness : Effectiveness) : LogType :=
  if effectiveness = Effectiveness.miss then LogType.miss
  else if effectiveness = Effectiveness.no_effect then LogType.no_effect
  else if effectiveness = Effectiveness.super_effective then LogType.super_effective
  else if effectiveness = Effectiveness.not_very_effective then LogType.not_very_effective
  else LogType.neutral

/-- Lines 197-215: the text of the action's log entry. -/
def actionLogMessage (attackerName defenderName moveName : String) (isOpponent : Bool)
    (result : DamageResult) : String :=
  let logMessage :=
    if isOpponent then "Opponent's " ++ attackerName ++ " used " ++ moveName ++ "! "
    else attackerName ++ " used " ++ moveName ++ "! "
  if result.hit = false then logMessage ++ "But it missed!"
  else if result.effectiveness = Effectiveness.no_effect then
    logMessage ++ "It had no effect on " ++ defenderName ++ "..."
  else
    let logMessage :=
      logMessage ++ "It dealt " ++ toString result.damage ++ " damage to " ++ defenderName ++ "."
    if result.effectiveness = Effectiveness.super_effective then
      logMessage ++ " It's super effective!"
    else if result.effectiveness = Effectiveness.not_very_effective then
      logMessage ++ " It's not very effective..."
    else logMessage

/-- The entry appended on line 217. -/
def actionLogEntry (attacker defender : Pokemon) (move : Move) (isOpponent : Bool)
    (result : DamageResult) : LogEntry :=
  { message := actionLogMessage (capitalized attacker.name) (capitalized defender.name)
      (capitalized move.name) isOpponent result,
    type := actionLogType result.effectiveness }

/-- The entry appended on line 221. -/
def faintedLogEntry (defender : Pokemon) : LogEntry :=
  { message := capitalized defender.name ++ " fainted!", type := LogType.fainted }

/-- The function `performAttack` of lines 189-225, as the effect of its state updates on
the live state `s`; `typeEffectivenessData` is `typeEffectivenessRef.current`. -/
def performAttack (attacker defender : Pokemon) (setDefender : Setter) (move : Move)
    (isOpponent : Bool) (typeEffectivenessData : TypeEffectivenessData) (accRoll dmgRoll : ℚ)
    (s : BattleState) : BattleState :=
  let result := calculateDamage attacker defender (some move) typeEffectivenessData accRoll
    dmgRoll
  let hp := newDefenderHp defender result.damage
  let s := s.appendLog (actionLogEntry attacker defender move isOpponent result)
  let s := s.writeHp setDefender hp
  if hp ≤ 0 then
    { s.appendLog (faintedLogEntry defender) with battleOver := true, isPlayerTurn := false }
  else s

/-- Lines 194-195: the health `newDefenderHp` that `performAttack` computes from its
arguments. -/
def resolvedHp (attacker defender : Pokemon) (move : Move)
    (typeEffectivenessData : TypeEffectivenessData) (accRoll dmgRoll : ℚ) : ℚ :=
  newDefenderHp defender
    (calculateDamage attacker defender (some move) typeEffectivenessData accRoll dmgRoll).damage

/-- Result of invoking a handler: the live state after its synchronous updates and
whether it registered its `setTimeout` callback. -/
structure HandlerResult where
  state : BattleState
  timeoutScheduled : Bool
  deriving DecidableEq, Repr

/-- Line 246: `opponentPokemon.moves.filter(move => move.power !== null)`. -/
def usableMoves (opponent : Pokemon) : List Move :=
  opponent.moves.filter (fun move => move.power.isSome)

/-- Line 247: `usableMoves.length > 0 ? usableMoves[Math.floor(Math.random() *
usableMoves.length)] : null`, with `moveRoll` the value drawn. -/
def randomMove (opponent : Pokemon) (moveRoll : ℚ) : Option Move :=
  let usable := usableMoves opponent
  if usable.length > 0 then
    let index := ⌊moveRoll * usable.length⌋
    if index < 0 then none else usable.get? index.toNat
  else none

/-- The entry appended on line 250. -/
def noUsableMoveLogEntry (opponent : Pokemon) : LogEntry :=
  { message := "Opponent's " ++ capitalized opponent.name ++
      " couldn't find a usable attack move!",
    type := LogType.info }

/-- The synchronous part of `handleOpponentAttack` (lines 243-256). -/
def handleOpponentAttack (c : BattleState) (typeEffectivenessData : TypeEffectivenessData)
    (moveRoll accRoll dmgRoll : ℚ) (s : BattleState) : HandlerResult :=
  match c.opponentPokemon, c.playerPokemon with
  | some opponentPokemon, some playerPokemon =>
    if c.battleOver then { state := s, timeoutScheduled := false }
    else
      match randomMove opponentPokemon moveRoll with
      | none =>
        { state := { s.appendLog (noUsableMoveLogEntry opponentPokemon) with
            isPlayerTurn := true },
          timeoutScheduled := false }
      | some move =>
        { state := performAttack opponentPokemon playerPokemon Setter.setPlayerPokemon move
            true typeEffectivenessData accRoll dmgRoll s,
          timeoutScheduled := true }
  | _, _ => { state := s, timeoutScheduled := false }

/-- The test `a && a.currentHp > 0 && b && b.currentHp > 0` of lines 234 and 259. -/
def bothStanding (a b : Option Pokemon) : Bool :=
  match a, b with
  | some a, some b => decide (a.currentHp > 0) && decide (b.currentHp > 0)
  | _, _ => false

/-- The `setTimeout` callback of `handleOpponentAttack` (lines 257-264). -/
def handleOpponentAttackTimeout (c : BattleState) (s : BattleState) : BattleState :=
  if bothStanding c.playerPokemon c.opponentPokemon then { s with isPlayerTurn := true }
  else { s with battleOver := true }

/-- The synchronous part of `handlePlayerAttack` (lines 227-231). -/
def handlePlayerAttack (c : BattleState) (move : Move)
    (typeEffectivenessData : TypeEffectivenessData) (accRoll dmgRoll : ℚ)
    (s : BattleState) : HandlerResult :=
  match c.playerPokemon, c.opponentPokemon with
  | some playerPokemon, some opponentPokemon =>
    if c.battleOver || !c.isPlayerTurn then { state := s, timeoutScheduled := false }
    else
      { state := performAttack playerPokemon opponentPokemon Setter.setOpponentPokemon move
          false typeEffectivenessData accRoll dmgRoll s,
        timeoutScheduled := true }
  | _, _ => { state := s, timeoutScheduled := false }

/-- The `setTimeout` callback of `handlePlayerAttack` (lines 232-240). The
`handleOpponentAttack` it calls belongs to the same render, so it has the same captured
state `c`. -/
def handlePlayerAttackTimeout (c : BattleState) (typeEffectivenessData : TypeEffectivenessData)
    (moveRoll accRoll dmgRoll : ℚ) (s : BattleState) : HandlerResult :=
  if bothStanding c.opponentPokemon c.playerPokemon then
    handleOpponentAttack c typeEffectivenessData moveRoll accRoll dmgRoll
      { s with isPlayerTurn := false }
  else { state := { s with battleOver := true }, timeoutScheduled := false }

/-- The expression `pokemon.stats.find(s => s.stat.name === 'hp')?.base_stat` (lines 152,
482, 608): the `hp` base stat, the initial and maximal health. -/
def hpBaseStat (pokemon : Pokemon) : Option ℚ :=
  (pokemon.stats.find? (fun s => s.stat.name == "hp")).map (fun s => s.base_stat)

/-- The lookup of lines 41-42 finds no entry, or an entry whose `base_stat` is 0. -/
def statMissing (stats : List StatEntry) (name : String) : Bool :=
  match stats.find? (fun s => s.stat.name == name) with
  | some s => decide (s.base_stat = 0)
  | none => true

/-- The function `getWinnerMessage` of lines 365-374; `none` stands for the TypeError of
reading `.name` of an absent combatant. -/
def getWinnerMessage (s : BattleState) : Option String :=
  if s.battleOver then
    if (match s.playerPokemon with
        | some playerPokemon => decide (playerPokemon.currentHp ≤ 0)
        | none => false) then
      match s.opponentPokemon with
      | some opponentPokemon =>
        some ("You lost! " ++ capitalized opponentPokemon.name ++ " wins!")
      | none => none
    else if (match s.opponentPokemon with
        | some opponentPokemon => decide (opponentPokemon.currentHp ≤ 0)
        | none => false) then
      match s.playerPokemon with
      | some playerPokemon =>
        some ("Congratulations! Your " ++ capitalized playerPokemon.name ++ " wins!")
      | none => none
    else some ""
  else some ""

/-! ## Session construction and substitution

Catalog data (`getPokemonByName`, the members of `playerTeam`) carries move references,
not hydrated moves. The remote lookups are parameters: `getMoveDetail url` is `none` when
the lookup failed (the function of `pokemonApi.js` then returns `null`), and
`getPokemonByName name` is `none` when the request threw. `shuffle` is the rearrangement
made by `.sort(() => 0.5 - Math.random())` and `nameRoll` the draw of line 160. An
`async` function is the sequence of its state updates, applied to the live state. -/

/-- Move reference `{ name, url }` inside a catalog move entry. -/
structure MoveRef where
  name : String
  url : String
  deriving DecidableEq, Repr

/-- Entry of `version_group_details`. -/
structure VersionGroupDetail where
  level_learned_at : ℚ
  move_learn_method : NamedResource
  deriving DecidableEq, Repr

/-- Entry of the catalog's `moves` list. -/
structure MoveInfo where
  move : MoveRef
  version_group_details : List VersionGroupDetail
  deriving DecidableEq, Repr

/-- Catalog data of one Pokemon (`response.data` of `getPokemonByName`). -/
structure CatalogPokemon where
  id : ℕ
  name : String
  stats : List StatEntry
  types : List TypeSlot
  moves : List MoveInfo
  deriving DecidableEq, Repr

/-- The battle state together with the remaining state cells of `BattleArena`:
`loadingBattle`, `errorBattle` (whether an error is stored), `selectedPlayerPokemonId`
(`none` for the empty string) and `showArena`. -/
structure ArenaState extends BattleState where
  loadingBattle : Bool
  errorBattle : Bool
  selectedPlayerPokemonId : Option ℕ
  showArena : Bool
  deriving DecidableEq, Repr

/-- The hydration `moves.slice(0, 4).map(moveInfo => getMoveDetail(moveInfo.move.url))`
followed by `(await Promise.all(...)).filter(Boolean)` (lines 146-149, 167-169). -/
def hydrateMoves (getMoveDetail : String → Option Move) (moves : List MoveInfo) : List Move :=
  ((moves.take 4).map (fun moveInfo => getMoveDetail moveInfo.move.url)).filterMap id

/-- The snapshot `{ ...pokemon, currentHp: pokemon.stats.find(s => s.stat.name ===
'hp').base_stat, moves, level: 50 }` (lines 150-155, 171-176); `none` stands for the
TypeError raised when there is no `hp` entry. -/
def battleSnapshot (pokemon : CatalogPokemon) (moves : List Move) : Option Pokemon :=
  match pokemon.stats.find? (fun s => s.stat.name == "hp") with
  | some hp =>
    some { id := pokemon.id, name := pokemon.name, stats := pokemon.stats,
           types := pokemon.types, moves := moves, level := 50, currentHp := hp.base_stat }
  | none => none

/-- The list `opponentNames` of lines 159 and 291. -/
def opponentNames : List String :=
  ["charizard", "blastoise", "venusaur", "pikachu", "snorlax", "gengar", "machamp", "onix",
    "gyarados", "alakazam"]

/-- Lines 160 and 292: `opponentNames[Math.floor(Math.random() * opponentNames.length)]`,
with `nameRoll` the value drawn. -/
def randomOpponentName (nameRoll : ℚ) : Option String :=
  let index := ⌊nameRoll * opponentNames.length⌋
  if index < 0 then none else opponentNames.get? index.toNat

/-- The `hp` base stat of catalog data: `pokemon.stats.find(s => s.stat.name ===
'hp')?.base_stat`. -/
def catalogHp (pokemon : CatalogPokemon) : Option ℚ :=
  (pokemon.stats.find? (fun s => s.stat.name == "hp")).map (fun s => s.base_stat)

/-- The filter of lines 165 and 296: learned by level-up at a positive level. -/
def learnedByLevelUp (moveInfo : MoveInfo) : Bool :=
  moveInfo.version_group_details.any
    (fun d => d.move_learn_method.name == "level-up" && decide (d.level_learned_at > 0))

/-- The opponent part shared by `fetchBattlePokemons` (lines 159-183) and `resetBattle`
(lines 291-312); every failure inside the `try` stores the error. The 100 ms timer that
sets `showArena` afterwards is a callback of its own and not part of the result. -/
def loadOpponent (getPokemonByName : String → Option CatalogPokemon)
    (getMoveDetail : String → Option Move) (shuffle : List MoveInfo → List MoveInfo)
    (nameRoll : ℚ) (s : ArenaState) : ArenaState :=
  match (randomOpponentName nameRoll).bind getPokemonByName with
  | some opponentData =>
    match battleSnapshot opponentData
        (hydrateMoves getMoveDetail (shuffle (opponentData.moves.filter learnedByLevelUp))) with
    | some snapshot => { s with opponentPokemon := some snapshot, loadingBattle := false }
    | none => { s with errorBattle := true, loadingBattle := false }
  | none => { s with errorBattle := true, loadingBattle := false }

/-- The updates of lines 130-135 and 268-273 that open a session. -/
def clearSession (s : ArenaState) : ArenaState :=
  { s with loadingBattle := true, errorBattle := false, battleLog := [], battleOver := false,
           isPlayerTurn := true, showArena := false }

/-- The function `fetchBattlePokemons` of lines 129-184 for the prop `playerTeam`. A
TypeError while building the player's snapshot ends the function after the opening
updates. -/
def fetchBattlePokemons (playerTeam : List CatalogPokemon)
    (getPokemonByName : String → Option CatalogPokemon)
    (getMoveDetail : String → Option Move) (shuffle : List MoveInfo → List MoveInfo)
    (nameRoll : ℚ) (s : ArenaState) : ArenaState :=
  let s := clearSession s
  match playerTeam with
  | [] => { s with playerPokemon := none, selectedPlayerPokemonId := none,
                   loadingBattle := false }
  | firstPokemon :: _ =>
    match battleSnapshot firstPokemon (hydrateMoves getMoveDetail firstPokemon.moves) with
    | none => s
    | some snapshot =>
      loadOpponent getPokemonByName getMoveDetail shuffle nameRoll
        { s with playerPokemon := some snapshot,
                 selectedPlayerPokemonId := some firstPokemon.id }

/-- The lookup `playerTeam.find(p => p.id === selectedId)`. -/
def findInTeam (playerTeam : List CatalogPokemon) (selectedId : Option ℕ) :
    Option CatalogPokemon :=
  selectedId.bind (fun id => playerTeam.find? (fun p => p.id == id))

/-- The function `resetBattle` of lines 267-313; `playerTeam` and
`selectedPlayerPokemonId` are the values captured by the render. -/
def resetBattle (playerTeam : List CatalogPokemon) (selectedPlayerPokemonId : Option ℕ)
    (getPokemonByName : String → Option CatalogPokemon)
    (getMoveDetail : String → Option Move) (shuffle : List MoveInfo → List MoveInfo)
    (nameRoll : ℚ) (s : ArenaState) : ArenaState :=
  let s := clearSession s
  let currentSelectedPokemon :=
    if playerTeam.length > 0 then findInTeam playerTeam selectedPlayerPokemonId else none
  match currentSelectedPokemon with
  | some pokemon =>
    match battleSnapshot pokemon (hydrateMoves getMoveDetail pokemon.moves) with
    | none => s
    | some snapshot =>
      loadOpponent getPokemonByName getMoveDetail shuffle nameRoll
        { s with playerPokemon := some snapshot }
  | none => loadOpponent getPokemonByName getMoveDetail shuffle nameRoll s

/-- The function `handlePlayerPokemonChange` of lines 315-339 for the selected value
`selectedId`. -/
def handlePlayerPokemonChange (playerTeam : List CatalogPokemon) (selectedId : ℕ)
    (getMoveDetail : String → Option Move) (s : ArenaState) : ArenaState :=
  let s := { s with selectedPlayerPokemonId := some selectedId }
  match findInTeam playerTeam (some selectedId) with
  | some pokemon =>
    let s := { s with loadingBattle := true, battleOver := false, isPlayerTurn := true,
                      battleLog := [], showArena := false }
    match battleSnapshot pokemon (hydrateMoves getMoveDetail pokemon.moves) with
    | none => s
    | some snapshot => { s with playerPokemon := some snapshot, loadingBattle := false }
  | none => s

/-! ## Team roster (`src/App.js`) -/

/-- Line 26: `MAX_TEAM_SIZE`. -/
def MAX_TEAM_SIZE : ℕ := 6

/-- The function `handleSelectPokemon` of lines 39-49: the guards read the team
`pokemonTeam` of the render, the update `prevTeam => [...prevTeam, pokemon]` is applied
to the live team. -/
def handleSelectPokemon (pokemonTeam : List CatalogPokemon) (pokemon : CatalogPokemon)
    (prevTeam : List CatalogPokemon) : List CatalogPokemon :=
  if pokemonTeam.length < MAX_TEAM_SIZE then
    if !pokemonTeam.any (fun p => p.id == pokemon.id) then prevTeam ++ [pokemon]
    else prevTeam
  else prevTeam

/-- The function `handleRemovePokemon` of lines 51-53. -/
def handleRemovePokemon (pokemonId : ℕ) (prevTeam : List CatalogPokemon) :
    List CatalogPokemon :=
  prevTeam.filter (fun p => p.id != pokemonId)

/-- One call of a roster handler. -/
inductive TeamAction where
  | select (pokemon : CatalogPokemon)
  | remove (pokemonId : ℕ)
  deriving DecidableEq, Repr

/-- A roster handler invoked from the current render: its captured team is the live one. -/
def applyTeamAction (team : List CatalogPokemon) : TeamAction → List CatalogPokemon
  | TeamAction.select pokemon => handleSelectPokemon team pokemon team
  | TeamAction.remove pokemonId => handleRemovePokemon pokemonId team

/-- The team after a sequence of handler calls, starting from `useState([])`. -/
def runTeamActions (actions : List TeamAction) : List CatalogPokemon :=
  actions.foldl applyTeamAction []

/-! ## Generation filter (`src/components/Pokedex.js`) -/

/-- Value of `GENERATION_RANGES`: `{ offset, limit }`. -/
structure GenerationRange where
  offset : ℤ
  limit : ℤ
  deriving DecidableEq, Repr

/-- The table `GENERATION_RANGES` of lines 29-40. -/
def GENERATION_RANGES : List (String × GenerationRange) :=
  [("all", ⟨0, 1025⟩), ("gen1", ⟨0, 151⟩), ("gen2", ⟨151, 100⟩), ("gen3", ⟨251, 135⟩),
    ("gen4", ⟨386, 107⟩), ("gen5", ⟨493, 156⟩), ("gen6", ⟨649, 72⟩), ("gen7", ⟨721, 88⟩),
    ("gen8", ⟨809, 96⟩), ("gen9", ⟨905, 120⟩)]

/-- The test of line 134: `pokemonId > genOffset && pokemonId <= genOffset + genLimit`. -/
def inGenerationRange (range : GenerationRange) (pokemonId : ℤ) : Bool :=
  decide (pokemonId > range.offset) && decide (pokemonId ≤ range.offset + range.limit)

/-- The entries of the keys `gen1` to `gen9`, the ones for which the filter is applied
(`selectedGen !== 'all'`). -/
def generationEntries : List (String × GenerationRange) :=
  GENERATION_RANGES.filter (fun entry => entry.1 != "all")

/-- The keys among `gen1` .. `gen9` whose test accepts `pokemonId`. -/
def acceptingGenerations (pokemonId : ℤ) : List String :=
  (generationEntries.filter (fun entry => inGenerationRange entry.2 pokemonId)).map
    (fun entry => entry.1)

/-! ## Spec-side definitions used for comparison -/

/-- Per-type factor in the words of the specification (section 4.2, step 4): 2 if the
defending type is in double-damage-to, 0.5 if in half-damage-to, 0 if in no-damage-to,
1 if it is in none of the three sets (cases read in the order listed). -/
def specTypeFactor (rel : DamageRelations) (defendingType : String) : ℚ :=
  if (⟨defendingType⟩ : NamedResource) ∈ rel.double_damage_to then 2
  else if (⟨defendingType⟩ : NamedResource) ∈ rel.half_damage_to then 1 / 2
  else if (⟨defendingType⟩ : NamedResource) ∈ rel.no_damage_to then 0
  else 1

/-- Well-formed relations in the words of the specification (section 3): a defending type
stands in one relation to the attacking type, so no type is listed in two of the three
sets `double_damage_to`, `half_damage_to`, `no_damage_to`. -/
def WellFormedRelations (rel : DamageRelations) : Prop :=
  (∀ r ∈ rel.no_damage_to, r ∉ rel.double_damage_to ∧ r ∉ rel.half_damage_to) ∧
    (∀ r ∈ rel.half_damage_to, r ∉ rel.double_damage_to)

instance (rel : DamageRelations) : Decidable (WellFormedRelations rel) := by
  unfold WellFormedRelations
  infer_instance

/-- Tier classification in the words of the specification (section 4.2, step 5):
`0` gives `no_effect`, `< 1` (and `> 0`) gives `not_very_effective`, `≥ 2` gives
`super_effective`, otherwise `neutral`. -/
def specTier (m : ℚ) : Effectiveness :=
  if m = 0 then Effectiveness.no_effect
  else if 0 < m ∧ m < 1 then Effectiveness.not_very_effective
  else if m ≥ 2 then Effectiveness.super_effective
  else Effectiveness.neutral

/-- A combatant cell holding a snapshot at level 50 whose `currentHp` is its own `hp` base
stat (specification, section 3 and section 4.3 on rematch). -/
def SpecFullHealth (cell : Option Pokemon) : Prop :=
  match cell with
  | some pokemon => pokemon.level = 50 ∧ hpBaseStat pokemon = some pokemon.currentHp
  | none => False

/-- A freshly constructed session in the words of the specification: empty log, state
`AwaitingPlayerAction` (`isPlayerTurn`, not `battleOver`), both snapshots at full health
and level 50. -/
def SpecFreshSession (s : ArenaState) : Prop :=
  s.battleLog = [] ∧ s.battleOver = false ∧ s.isPlayerTurn = true ∧
    SpecFullHealth s.playerPokemon ∧ SpecFullHealth s.opponentPokemon

/-- The hydrated moveset in the words of the specification: the successful lookups among
the first 4 references, in their original order. -/
def specHydrated (getMoveDetail : String → Option Move) (moves : List MoveInfo) : List Move :=
  (moves.take 4).filterMap (fun moveInfo => getMoveDetail moveInfo.move.url)

/-! ## Concrete inputs -/

/-- Catalog relations of the attacking type `ghost`. -/
def ghostRelations : DamageRelations :=
  { double_damage_to := [⟨"ghost"⟩, ⟨"psychic"⟩],
    half_damage_to := [⟨"dark"⟩],
    no_damage_to := [⟨"normal"⟩] }

/-- Type table holding only the relations of `ghost`. -/
def ghostTable : TypeEffectivenessData :=
  fun attackType => if attackType = "ghost" then some ghostRelations else none

/-- Ghost move without accuracy (always hits), power 60. -/
def shadowPunch : Move :=
  { name := "shadow-punch", power := some 60, accuracy := none, type := ⟨"ghost"⟩ }

/-- Ghost move with power 30 and accuracy 100. -/
def lick : Move :=
  { name := "lick", power := some 30, accuracy := some 100, type := ⟨"ghost"⟩ }

/-- Move whose `power` is the number 0 (not `null`), of a type without table entry. -/
def zeroPowerMove : Move :=
  { name := "zero-power", power := some 0, accuracy := some 100, type := ⟨"normal"⟩ }

/-- Powered move whose `accuracy` is the number 0. -/
def zeroAccuracyMove : Move :=
  { name := "zero-accuracy", power := some 40, accuracy := some 0, type := ⟨"normal"⟩ }

/-- Status move: `power` is `null`. -/
def growl : Move :=
  { name := "growl", power := none, accuracy := some 100, type := ⟨"normal"⟩ }

/-- A ghost/poison attacker at level 50. -/
def gengar : Pokemon :=
  { id := 94, name := "gengar",
    stats := [⟨60, ⟨"hp"⟩⟩, ⟨65, ⟨"attack"⟩⟩, ⟨60, ⟨"defense"⟩⟩],
    types := [⟨⟨"ghost"⟩⟩, ⟨⟨"poison"⟩⟩], moves := [shadowPunch, lick], level := 50,
    currentHp := 60 }

/-- A pure normal defender at level 50. -/
def snorlax : Pokemon :=
  { id := 143, name := "snorlax",
    stats := [⟨160, ⟨"hp"⟩⟩, ⟨110, ⟨"attack"⟩⟩, ⟨65, ⟨"defense"⟩⟩],
    types := [⟨⟨"normal"⟩⟩], moves := [growl], level := 50, currentHp := 160 }

/-- A defender with the two types ghost and psychic. -/
def ghostPsychic : Pokemon :=
  { id := 0, name := "ghost-psychic",
    stats := [⟨80, ⟨"hp"⟩⟩, ⟨100, ⟨"attack"⟩⟩, ⟨100, ⟨"defense"⟩⟩],
    types := [⟨⟨"ghost"⟩⟩, ⟨⟨"psychic"⟩⟩], moves := [], level := 50, currentHp := 80 }

/-- Normal move with power 40 and accuracy 100. -/
def tackle : Move :=
  { name := "tackle", power := some 40, accuracy := some 100, type := ⟨"normal"⟩ }

/-- A combatant whose `stats` list has no `attack` entry and a `defense` entry of 0. -/
def statless : Pokemon :=
  { id := 2, name := "statless", stats := [⟨50, ⟨"hp"⟩⟩, ⟨0, ⟨"defense"⟩⟩],
    types := [⟨⟨"normal"⟩⟩], moves := [tackle], level := 50, currentHp := 50 }

/-- A ghost/psychic opponent with 10 health left and the usable move `tackle`. -/
def weakOpponent : Pokemon :=
  { ghostPsychic with currentHp := 10, moves := [tackle] }

/-- Battle state in which it is the player's turn: gengar against `weakOpponent`. -/
def finishingState : BattleState :=
  { playerPokemon := some gengar, opponentPokemon := some weakOpponent, battleLog := [],
    isPlayerTurn := true, battleOver := false }

/-- The same ghost/psychic opponent at full health (80). -/
def freshOpponent : Pokemon :=
  { ghostPsychic with moves := [tackle] }

/-- Battle state in which it is the player's turn: gengar against `freshOpponent`. -/
def openingState : BattleState :=
  { playerPokemon := some gengar, opponentPokemon := some freshOpponent, battleLog := [],
    isPlayerTurn := true, battleOver := false }

/-- The live state after the player's finishing blow in `finishingState`: the opponent has
fainted and the battle is over. -/
def faintedState : BattleState :=
  { playerPokemon := some gengar,
    opponentPokemon := some { weakOpponent with currentHp := 0 },
    battleLog :=
      [⟨"Gengar used Shadow-punch! It dealt 70 damage to Ghost-psychic. It's super effective!",
          LogType.super_effective⟩,
        ⟨"Ghost-psychic fainted!", LogType.fainted⟩],
    isPlayerTurn := false, battleOver := true }

/-- The state `faintedState` after a further attack of the fainted opponent on the player. -/
def attackedAfterFaintState : BattleState :=
  { faintedState with
    playerPokemon := some { gengar with currentHp := 32 },
    battleLog := faintedState.battleLog ++
      [⟨"Opponent's Ghost-psychic used Tackle! It dealt 28 damage to Gengar.",
        LogType.neutral⟩] }

/-- The live state after the player's first attack in `openingState`: the opponent is left
with 10 health and no turn flag has changed. -/
def afterOpeningState : BattleState :=
  { openingState with
    opponentPokemon := some weakOpponent,
    battleLog :=
      [⟨"Gengar used Shadow-punch! It dealt 70 damage to Ghost-psychic. It's super effective!",
        LogType.super_effective⟩] }

/-- The state `afterOpeningState` after a second attack of the player. -/
def doubleAttackState : BattleState :=
  { playerPokemon := some gengar,
    opponentPokemon := some { weakOpponent with currentHp := 0 },
    battleLog := afterOpeningState.battleLog ++
      [⟨"Gengar used Shadow-punch! It dealt 70 damage to Ghost-psychic. It's super effective!",
          LogType.super_effective⟩,
        ⟨"Ghost-psychic fainted!", LogType.fainted⟩],
    isPlayerTurn := false, battleOver := true }

/-- Battle state in which it is the opponent's turn: gengar against snorlax, whose only
move is the status move `growl`. -/
def statusOnlyState : BattleState :=
  { playerPokemon := some gengar, opponentPokemon := some snorlax, battleLog := [],
    isPlayerTurn := false, battleOver := false }

/-- Reference to the move `name` with the url `"move/" ++ name`. -/
def moveInfoOf (name : String) : MoveInfo :=
  { move := { name := name, url := "move/" ++ name },
    version_group_details := [⟨1, ⟨"level-up"⟩⟩] }

/-- Catalog data of gengar with five move references. -/
def catalogGengar : CatalogPokemon :=
  { id := 94, name := "gengar",
    stats := [⟨60, ⟨"hp"⟩⟩, ⟨65, ⟨"attack"⟩⟩, ⟨60, ⟨"defense"⟩⟩],
    types := [⟨⟨"ghost"⟩⟩, ⟨⟨"poison"⟩⟩],
    moves := [moveInfoOf "shadow-punch", moveInfoOf "unknown", moveInfoOf "lick",
      moveInfoOf "growl", moveInfoOf "tackle"] }

/-- Catalog data of snorlax. -/
def catalogSnorlax : CatalogPokemon :=
  { id := 143, name := "snorlax",
    stats := [⟨160, ⟨"hp"⟩⟩, ⟨110, ⟨"attack"⟩⟩, ⟨65, ⟨"defense"⟩⟩],
    types := [⟨⟨"normal"⟩⟩], moves := [moveInfoOf "tackle", moveInfoOf "growl"] }

/-- Move lookups: the lookup of `"move/unknown"` fails. -/
def sampleMoveDetail (url : String) : Option Move :=
  if url = "move/shadow-punch" then some shadowPunch
  else if url = "move/lick" then some lick
  else if url = "move/growl" then some growl
  else if url = "move/tackle" then some tackle
  else none

/-- Catalog lookups: only snorlax can be fetched. -/
def sampleCatalog (name : String) : Option CatalogPokemon :=
  if name = "snorlax" then some catalogSnorlax else none

/-- The state left by a finished session: battle over, log not empty, no turn owner. -/
def finishedArena : ArenaState :=
  { toBattleState := doubleAttackState, loadingBattle := false, errorBattle := false,
    selectedPlayerPokemonId := some 94, showArena := true }

/-- A running session in the state `AwaitingPlayerAction` with one log entry. -/
def runningArena : ArenaState :=
  { toBattleState := afterOpeningState, loadingBattle := false, errorBattle := false,
    selectedPlayerPokemonId := some 94, showArena := true }

/-- The attacker gengar with the `attack` stat raised to 400. -/
def strongGengar : Pokemon :=
  { gengar with stats := [⟨60, ⟨"hp"⟩⟩, ⟨400, ⟨"attack"⟩⟩, ⟨60, ⟨"defense"⟩⟩] }

/-- The attacker gengar with the `attack` stat 100. -/
def plainGengar : Pokemon :=
  { gengar with stats := [⟨60, ⟨"hp"⟩⟩, ⟨100, ⟨"attack"⟩⟩, ⟨60, ⟨"defense"⟩⟩] }

/-- The ghost/psychic defender with the `defense` stat lowered to 50. -/
def frailGhostPsychic : Pokemon :=
  { ghostPsychic with stats := [⟨80, ⟨"hp"⟩⟩, ⟨100, ⟨"attack"⟩⟩, ⟨50, ⟨"defense"⟩⟩] }

/-- The move `shadow-punch` with the power raised to 80. -/
def heavyShadowPunch : Move :=
  { shadowPunch with power := some 80 }

/-- The state `doubleAttackState` after the timer of the player's first attack has fired:
the opponent's tackle took the player from 60 to 32. -/
def firstTimerState : BattleState :=
  { doubleAttackState with
    playerPokemon := some { gengar with currentHp := 32 },
    battleLog := doubleAttackState.battleLog ++
      [⟨"Opponent's Ghost-psychic used Tackle! It dealt 28 damage to Gengar.",
        LogType.neutral⟩] }

/-- The state `firstTimerState` after the timer of the player's second attack has fired:
a second tackle is logged and the player's health is again 32. -/
def secondTimerState : BattleState :=
  { firstTimerState with
    battleLog := firstTimerState.battleLog ++
      [⟨"Opponent's Ghost-psychic used Tackle! It dealt 28 damage to Gengar.",
        LogType.neutral⟩] }

/-- Normal move with power 80 and accuracy 75. -/
def slam : Move :=
  { name := "slam", power := some 80, accuracy := some 75, type := ⟨"normal"⟩ }

/-- The player's snapshot of snorlax (health 160 of 160), hydrated from `catalogSnorlax`. -/
def snorlaxPlayer : Pokemon :=
  { snorlax with moves := [tackle, growl] }

/-- The player's snapshot of gengar (health 60 of 60), hydrated from `catalogGengar`. -/
def gengarSubstitute : Pokemon :=
  { gengar with moves := [shadowPunch, lick, growl] }

/-- A ghost/psychic opponent (health 80 of 80) whose only move is `slam`. -/
def slamOpponent : Pokemon :=
  { ghostPsychic with moves := [slam] }

/-- The team snorlax, gengar. -/
def switchTeam : List CatalogPokemon :=
  [catalogSnorlax, catalogGengar]

/-- Battle state in which it is the player's turn: snorlax against `slamOpponent`. -/
def switchStart : BattleState :=
  { playerPokemon := some snorlaxPlayer, opponentPokemon := some slamOpponent,
    battleLog := [], isPlayerTurn := true, battleOver := false }

/-- The live state after snorlax's tackle in `switchStart`: the opponent is left with 61
health and no turn flag has changed. -/
def afterSwitchAttack : BattleState :=
  { switchStart with
    opponentPokemon := some { slamOpponent with currentHp := 61 },
    battleLog := [⟨"Snorlax used Tackle! It dealt 19 damage to Ghost-psychic.",
      LogType.neutral⟩] }

/-- The component state holding `afterSwitchAttack`. -/
def attackedArena : ArenaState :=
  { toBattleState := afterSwitchAttack, loadingBattle := false, errorBattle := false,
    selectedPlayerPokemonId := some 143, showArena := true }

/-- The live battle state after the player has substituted gengar for snorlax. -/
def substitutedState : BattleState :=
  { playerPokemon := some gengarSubstitute,
    opponentPokemon := some { slamOpponent with currentHp := 61 },
    battleLog := [], isPlayerTurn := true, battleOver := false }

/-- The component state holding `substitutedState`. -/
def substitutedArena : ArenaState :=
  { toBattleState := substitutedState, loadingBattle := false, errorBattle := false,
    selectedPlayerPokemonId := some 94, showArena := false }

/-- The state `substitutedState` after the pending timer resolved a hit of `slam`: gengar
holds the health computed for snorlax. -/
def staleHitState : BattleState :=
  { substitutedState with
    playerPokemon := some { gengarSubstitute with currentHp := 109 },
    battleLog := [⟨"Opponent's Ghost-psychic used Slam! It dealt 51 damage to Snorlax.",
      LogType.neutral⟩],
    isPlayerTurn := false }

/-- Battle state in which it is the player's turn: gengar against `slamOpponent`. -/
def slamOpening : BattleState :=
  { playerPokemon := some gengar, opponentPokemon := some slamOpponent, battleLog := [],
    isPlayerTurn := true, battleOver := false }

/-- The live state after the player's first attack in `slamOpening`: the opponent is left
with 10 health and no turn flag has changed. -/
def slamAfterOpening : BattleState :=
  { slamOpening with
    opponentPokemon := some { slamOpponent with currentHp := 10 },
    battleLog :=
      [⟨"Gengar used Shadow-punch! It dealt 70 damage to Ghost-psychic. It's super effective!",
        LogType.super_effective⟩] }

/-- The live state after a second attack of the player in `slamAfterOpening`: the opponent
has fainted. -/
def slamDoubleAttack : BattleState :=
  { playerPokemon := some gengar,
    opponentPokemon := some { slamOpponent with currentHp := 0 },
    battleLog := slamAfterOpening.battleLog ++
      [⟨"Gengar used Shadow-punch! It dealt 70 damage to Ghost-psychic. It's super effective!",
          LogType.super_effective⟩,
        ⟨"Ghost-psychic fainted!", LogType.fainted⟩],
    isPlayerTurn := false, battleOver := true }

/-- The state `slamDoubleAttack` after the timer of the player's first attack has fired
with a hit of `slam`: the player is left with 4 health. -/
def slamFirstTimer : BattleState :=
  { slamDoubleAttack with
    playerPokemon := some { gengar with currentHp := 4 },
    battleLog := slamDoubleAttack.battleLog ++
      [⟨"Opponent's Ghost-psychic used Slam! It dealt 56 damage to Gengar.",
        LogType.neutral⟩] }

/-- The state `slamFirstTimer` after the timer of the player's second attack has fired
with a miss of `slam`: the player's health is 60. -/
def slamSecondTimer : BattleState :=
  { slamFirstTimer with
    playerPokemon := some { gengar with currentHp := 60 },
    battleLog := slamFirstTimer.battleLog ++
      [⟨"Opponent's Ghost-psychic used Slam! But it missed!", LogType.miss⟩] }

/-! ## Lemmas on calculateDamage -/

theorem calculateDamage_of_hit (attacker defender : Pokemon) (move : Move)
    (data : TypeEffectivenessData) (accRoll dmgRoll power : ℚ)
    (hpow : move.power = some power) (hacc : accuracyCheckFails move accRoll = false) :
    calculateDamage attacker defender (some move) data accRoll dmgRoll =
      { damage := max 1 ⌊baseDamage attacker.level power (baseStatOr1 attacker.stats "attack")
            (baseStatOr1 defender.stats "defense") * (typeMatchup data move defender).1 *
              rollFactor dmgRoll⌋,
        hit := true,
        effectiveness := (typeMatchup data move defender).2 } := by
  simp [calculateDamage, hpow, hacc]

theorem calculateDamage_of_miss (attacker defender : Pokemon) (move : Move)
    (data : TypeEffectivenessData) (accRoll dmgRoll power : ℚ)
    (hpow : move.power = some power) (hacc : accuracyCheckFails move accRoll = true) :
    calculateDamage attacker defender (some move) data accRoll dmgRoll =
      { damage := 0, hit := false, effectiveness := Effectiveness.miss } := by
  simp [calculateDamage, hpow, hacc]

theorem accuracyCheckFails_of_none (move : Move) (accRoll : ℚ) (h : move.accuracy = none) :
    accuracyCheckFails move accRoll = false := by
  simp [accuracyCheckFails, h]

theorem typeMatchup_of_some (data : TypeEffectivenessData) (move : Move) (defender : Pokemon)
    (rel : DamageRelations) (h : data move.type.name = some rel) :
    typeMatchup data move defender =
      (tempMultiplier rel (defenderTypes defender),
        effectivenessMessage (tempMultiplier rel (defenderTypes defender))) := by
  simp [typeMatchup, h]

theorem typeMatchup_of_none (data : TypeEffectivenessData) (move : Move) (defender : Pokemon)
    (h : data move.type.name = none) :
    typeMatchup data move defender = (1, Effectiveness.neutral) := by
  simp [typeMatchup, h]

/-- A hit with multiplier 0 is floored to 0 and then raised to 1 by `Math.max(1, damage)`. -/
theorem calculateDamage_zero_multiplier (attacker defender : Pokemon) (move : Move)
    (data : TypeEffectivenessData) (accRoll dmgRoll power : ℚ)
    (hpow : move.power = some power) (hacc : accuracyCheckFails move accRoll = false)
    (hzero : effectivenessMultiplier data move defender = 0) :
    (calculateDamage attacker defender (some move) data accRoll dmgRoll).damage = 1 := by
  rw [calculateDamage_of_hit attacker defender move data accRoll dmgRoll power hpow hacc]
  have h0 : (typeMatchup data move defender).1 = 0 := hzero
  simp [h0]

/-! ## Lemmas on the effectiveness multiplier -/

theorem listsType_iff (relations : List NamedResource) (t : String) :
    listsType relations t = true ↔ (⟨t⟩ : NamedResource) ∈ relations := by
  simp only [listsType, List.any_eq_true, beq_iff_eq]
  constructor
  · rintro ⟨r, hr, rfl⟩
    exact hr
  · intro h
    exact ⟨⟨t⟩, h, rfl⟩

theorem multiplierStep_eq_mul (rel : DamageRelations) (acc : ℚ) (t : String) :
    multiplierStep rel acc t = acc * specTypeFactor rel t := by
  unfold multiplierStep specTypeFactor
  by_cases hd : (⟨t⟩ : NamedResource) ∈ rel.double_damage_to
  · simp [(listsType_iff _ _).2 hd, hd]
  · have hd' : listsType rel.double_damage_to t = false := by
      rw [← Bool.not_eq_true, listsType_iff]; exact hd
    by_cases hh : (⟨t⟩ : NamedResource) ∈ rel.half_damage_to
    · simp [hd', hd, (listsType_iff _ _).2 hh, hh]
      norm_num
    · have hh' : listsType rel.half_damage_to t = false := by
        rw [← Bool.not_eq_true, listsType_iff]; exact hh
      by_cases hn : (⟨t⟩ : NamedResource) ∈ rel.no_damage_to
      · simp [hd', hd, hh', hh, (listsType_iff _ _).2 hn, hn]
      · have hn' : listsType rel.no_damage_to t = false := by
          rw [← Bool.not_eq_true, listsType_iff]; exact hn
        simp [hd', hd, hh', hh, hn', hn]

theorem foldl_multiplierStep (rel : DamageRelations) (types : List String) (acc : ℚ) :
    types.foldl (multiplierStep rel) acc = acc * (types.map (specTypeFactor rel)).prod := by
  induction types generalizing acc with
  | nil => simp
  | cons t ts ih =>
    simp only [List.foldl_cons, List.map_cons, List.prod_cons]
    rw [ih, multiplierStep_eq_mul, mul_assoc]

theorem tempMultiplier_eq_prod (rel : DamageRelations) (types : List String) :
    tempMultiplier rel types = (types.map (specTypeFactor rel)).prod := by
  simp [tempMultiplier, foldl_multiplierStep]

/-- Every multiplier computed by the loop is 0 or an integer power of 2. -/
theorem tempMultiplier_zero_or_zpow (rel : DamageRelations) (types : List String) :
    tempMultiplier rel types = 0 ∨ ∃ k : ℤ, tempMultiplier rel types = 2 ^ k := by
  rw [tempMultiplier_eq_prod]
  induction types with
  | nil => exact Or.inr ⟨0, by simp⟩
  | cons t ts ih =>
    simp only [List.map_cons, List.prod_cons]
    rcases ih with h0 | ⟨k, hk⟩
    · left; simp [h0]
    · rw [hk]
      unfold specTypeFactor
      split_ifs
      · exact Or.inr ⟨k + 1, by rw [zpow_add_one₀ (by norm_num : (2 : ℚ) ≠ 0)]; ring⟩
      · exact Or.inr ⟨k - 1, by rw [zpow_sub_one₀ (by norm_num : (2 : ℚ) ≠ 0)]; ring⟩
      · left; simp
      · exact Or.inr ⟨k, by simp⟩

/-- On the values the loop can produce, the code's thresholds agree with the tiers of the
specification. -/
theorem effectivenessMessage_eq_specTier_of_zpow (m : ℚ)
    (h : m = 0 ∨ ∃ k : ℤ, m = 2 ^ k) :
    effectivenessMessage m = specTier m ∧ ¬ (1 / 2 < m ∧ m < 1) := by
  rcases h with h0 | ⟨k, hk⟩
  · subst h0
    refine ⟨by simp [effectivenessMessage, specTier], ?_⟩
    norm_num
  · have hpos : (0 : ℚ) < m := by rw [hk]; exact zpow_pos (by norm_num) k
    have hne : m ≠ 0 := ne_of_gt hpos
    rcases lt_trichotomy k 0 with hlt | heq | hgt
    · have hle : m ≤ 1 / 2 := by
        rw [hk]
        calc (2 : ℚ) ^ k ≤ 2 ^ (-1 : ℤ) :=
              zpow_le_zpow_right₀ (by norm_num) (by omega)
          _ = 1 / 2 := by norm_num
      have hlt1 : m < 1 := lt_of_le_of_lt hle (by norm_num)
      have hnot2 : ¬ (2 : ℚ) ≤ m := by linarith
      have hle' : m ≤ 0.5 := by norm_num; linarith
      refine ⟨?_, fun hh => absurd hh.1 (not_lt.2 hle)⟩
      simp [effectivenessMessage, specTier, hne, hnot2, hle', hpos, hlt1]
    · have h1 : m = 1 := by rw [hk, heq]; simp
      subst h1
      refine ⟨?_, by norm_num⟩
      simp [effectivenessMessage, specTier]
      norm_num
    · have hge : (2 : ℚ) ≤ m := by
        rw [hk]
        calc (2 : ℚ) = 2 ^ (1 : ℤ) := by norm_num
          _ ≤ 2 ^ k := zpow_le_zpow_right₀ (by norm_num) (by omega)
      have hnlt1 : ¬ m < 1 := by linarith
      refine ⟨?_, fun hh => hnlt1 hh.2⟩
      simp [effectivenessMessage, specTier, hne, hge, hnlt1]

/-! ## Claims -/

/-- C1 (code defect): on the hit of a Ghost move (`shadow-punch`, no accuracy, so it hits
on every draw) against a pure Normal defender the multiplier is 0 and the reported tier is
`no_effect`, but `calculateDamage` returns damage 1, not 0, for every pair of random
draws: `Math.max(1, damage)` is applied to the zero-multiplier hit as well. -/
theorem C1_no_effect_hit_deals_one (accRoll dmgRoll : ℚ) :
    effectivenessMultiplier ghostTable shadowPunch snorlax = 0 ∧
    calculateDamage gengar snorlax (some shadowPunch) ghostTable accRoll dmgRoll =
      { damage := 1, hit := true, effectiveness := Effectiveness.no_effect } := by
  have hm : typeMatchup ghostTable shadowPunch snorlax = (0, Effectiveness.no_effect) := by
    simp [typeMatchup, ghostTable, shadowPunch, ghostRelations, snorlax, tempMultiplier,
      defenderTypes, multiplierStep, listsType, effectivenessMessage]
  refine ⟨by simp [effectivenessMultiplier, hm], ?_⟩
  rw [calculateDamage_of_hit gengar snorlax shadowPunch ghostTable accRoll dmgRoll 60 rfl
    (accuracyCheckFails_of_none _ _ rfl), hm]
  simp

/-- C2 (counterexample): a move whose power is the number 0 is not resolved like a status
move: with accuracy roll 50 and damage draw 1/2 `calculateDamage` returns damage 1
(base value 2, factor 0.925, floored), not `{damage: 0, hit: true, effectiveness:
'neutral'}`. -/
theorem C2_zero_power_counterexample :
    zeroPowerMove.power = some 0 ∧
    calculateDamage gengar snorlax (some zeroPowerMove) ghostTable (1 / 2) (1 / 2) =
      { damage := 1, hit := true, effectiveness := Effectiveness.neutral } ∧
    calculateDamage gengar snorlax (some zeroPowerMove) ghostTable (1 / 2) (1 / 2) ≠
      { damage := 0, hit := true, effectiveness := Effectiveness.neutral } := by
  have hacc : accuracyCheckFails zeroPowerMove (1 / 2) = false := by
    simp [accuracyCheckFails, zeroPowerMove]; norm_num
  have hm : typeMatchup ghostTable zeroPowerMove snorlax = (1, Effectiveness.neutral) := by
    simp [typeMatchup, ghostTable, zeroPowerMove]
  have hfloor : ⌊((37 : ℚ) / 20)⌋ = 1 := by
    rw [Int.floor_eq_iff]; norm_num
  have hres : calculateDamage gengar snorlax (some zeroPowerMove) ghostTable (1 / 2) (1 / 2) =
      { damage := 1, hit := true, effectiveness := Effectiveness.neutral } := by
    rw [calculateDamage_of_hit gengar snorlax zeroPowerMove ghostTable (1 / 2) (1 / 2) 0 rfl
      hacc, hm]
    have hval : baseDamage gengar.level 0 (baseStatOr1 gengar.stats "attack")
        (baseStatOr1 snorlax.stats "defense") * (1, Effectiveness.neutral).1 *
          rollFactor (1 / 2) = 37 / 20 := by
      simp [baseDamage, rollFactor]; norm_num
    rw [hval, hfloor]
    simp
  refine ⟨rfl, hres, ?_⟩
  rw [hres]
  decide

/-- C2 (amended): only `power = null` (or a missing move) is resolved as a status move.
For a move whose power is the number 0 the formula is run with base value 2: on a hit
`calculateDamage` returns `hit = true`, the tier of the type match-up and
`damage = max(1, floor(2 * m * rollFactor))`, which is at least 1, so the health that
`performAttack` writes for a defender with positive `currentHp` is strictly smaller. -/
theorem C2_zero_power_runs_formula (attacker defender : Pokemon) (move : Move)
    (data : TypeEffectivenessData) (accRoll dmgRoll : ℚ)
    (hpow : move.power = some 0) (hacc : accuracyCheckFails move accRoll = false)
    (hhp : 0 < defender.currentHp) :
    calculateDamage attacker defender (some move) data accRoll dmgRoll =
      { damage := max 1 ⌊2 * effectivenessMultiplier data move defender * rollFactor dmgRoll⌋,
        hit := true,
        effectiveness := (typeMatchup data move defender).2 } ∧
    1 ≤ (calculateDamage attacker defender (some move) data accRoll dmgRoll).damage ∧
    newDefenderHp defender
      (calculateDamage attacker defender (some move) data accRoll dmgRoll).damage <
        defender.currentHp := by
  rw [calculateDamage_of_hit attacker defender move data accRoll dmgRoll 0 hpow hacc]
  have hb : baseDamage attacker.level 0 (baseStatOr1 attacker.stats "attack")
      (baseStatOr1 defender.stats "defense") = 2 := by
    simp [baseDamage]
  rw [hb]
  refine ⟨rfl, le_max_left _ _, ?_⟩
  have hd : (1 : ℚ) ≤ ((max 1 ⌊2 * (typeMatchup data move defender).1 * rollFactor dmgRoll⌋ : ℤ) : ℚ) := by
    exact_mod_cast le_max_left (1 : ℤ) _
  unfold newDefenderHp
  exact max_lt hhp (by linarith)

/-- Witness for C2 (amended) at `zeroPowerMove` with accuracy roll 50. -/
theorem C2_zero_power_runs_formula_witness :
    calculateDamage gengar snorlax (some zeroPowerMove) ghostTable (1 / 2) (1 / 2) =
      { damage := max 1 ⌊2 * effectivenessMultiplier ghostTable zeroPowerMove snorlax *
          rollFactor (1 / 2)⌋,
        hit := true,
        effectiveness := (typeMatchup ghostTable zeroPowerMove snorlax).2 } ∧
    1 ≤ (calculateDamage gengar snorlax (some zeroPowerMove) ghostTable (1 / 2) (1 / 2)).damage ∧
    newDefenderHp snorlax
      (calculateDamage gengar snorlax (some zeroPowerMove) ghostTable (1 / 2) (1 / 2)).damage <
        snorlax.currentHp :=
  C2_zero_power_runs_formula gengar snorlax zeroPowerMove ghostTable (1 / 2) (1 / 2) rfl
    (by simp [accuracyCheckFails, zeroPowerMove]; norm_num)
    (by simp [snorlax])

/-- C3: for a missing move, and for a move whose power is `null`, `calculateDamage`
returns exactly `{damage: 0, hit: true, effectiveness: 'neutral'}` for every attacker,
defender, type table and random draws (the result does not depend on any of them). -/
theorem C3_status_move_result (attacker defender : Pokemon) (move : Option Move)
    (data : TypeEffectivenessData) (accRoll dmgRoll : ℚ)
    (h : move = none ∨ ∃ m, move = some m ∧ m.power = none) :
    calculateDamage attacker defender move data accRoll dmgRoll =
      { damage := 0, hit := true, effectiveness := Effectiveness.neutral } := by
  rcases h with h | ⟨m, hm, hp⟩
  · simp [calculateDamage, h]
  · simp [calculateDamage, hm, hp]

/-- Witness for C3 at the status move `growl`. -/
theorem C3_status_move_result_witness :
    calculateDamage gengar snorlax (some growl) ghostTable (1 / 2) (1 / 2) =
      { damage := 0, hit := true, effectiveness := Effectiveness.neutral } :=
  C3_status_move_result gengar snorlax (some growl) ghostTable (1 / 2) (1 / 2)
    (Or.inr ⟨growl, rfl, rfl⟩)

/-- C4 (counterexample): a powered move whose accuracy is the number 0 never misses. With
the accuracy roll 50, which exceeds 0, `calculateDamage` skips the check (`0` is falsy)
and returns a hit with damage 18 instead of `{damage: 0, hit: false, effectiveness:
'miss'}`. -/
theorem C4_zero_accuracy_counterexample :
    zeroAccuracyMove.accuracy = some 0 ∧ (1 / 2 : ℚ) * 100 > 0 ∧
    calculateDamage gengar snorlax (some zeroAccuracyMove) ghostTable (1 / 2) (1 / 2) =
      { damage := 18, hit := true, effectiveness := Effectiveness.neutral } := by
  have hacc : accuracyCheckFails zeroAccuracyMove (1 / 2) = false := by
    simp [accuracyCheckFails, zeroAccuracyMove]
  have hm : typeMatchup ghostTable zeroAccuracyMove snorlax = (1, Effectiveness.neutral) := by
    simp [typeMatchup, ghostTable, zeroAccuracyMove]
  have hfloor : ⌊((1813 : ℚ) / 100)⌋ = 18 := by
    rw [Int.floor_eq_iff]; norm_num
  refine ⟨rfl, by norm_num, ?_⟩
  rw [calculateDamage_of_hit gengar snorlax zeroAccuracyMove ghostTable (1 / 2) (1 / 2) 40 rfl
    hacc, hm]
  have hval : baseDamage gengar.level 40 (baseStatOr1 gengar.stats "attack")
      (baseStatOr1 snorlax.stats "defense") * (1, Effectiveness.neutral).1 *
        rollFactor (1 / 2) = 1813 / 100 := by
    simp [baseDamage, rollFactor, baseStatOr1, gengar, snorlax]; norm_num
  rw [hval, hfloor]
  simp

/-- C4 (amended): for every powered move whose accuracy `a` is defined and non-zero, and
every accuracy roll `accRoll * 100 > a`, `calculateDamage` returns exactly
`{damage: 0, hit: false, effectiveness: 'miss'}`, whatever the stats, the defender's
types and the type table are. -/
theorem C4_failed_accuracy_roll_misses (attacker defender : Pokemon) (move : Move)
    (data : TypeEffectivenessData) (accRoll dmgRoll power a : ℚ)
    (hpow : move.power = some power) (hacc : move.accuracy = some a) (ha : a ≠ 0)
    (hroll : accRoll * 100 > a) :
    calculateDamage attacker defender (some move) data accRoll dmgRoll =
      { damage := 0, hit := false, effectiveness := Effectiveness.miss } := by
  apply calculateDamage_of_miss attacker defender move data accRoll dmgRoll power hpow
  simp [accuracyCheckFails, hacc, ha, hroll]

/-- Witness for C4 (amended): `lick` with accuracy lowered to 70 and the roll 80, against a
defender for which the multiplier would be 4. -/
theorem C4_failed_accuracy_roll_misses_witness :
    calculateDamage gengar ghostPsychic (some { lick with accuracy := some 70 }) ghostTable
        (4 / 5) (1 / 2) =
      { damage := 0, hit := false, effectiveness := Effectiveness.miss } :=
  C4_failed_accuracy_roll_misses gengar ghostPsychic { lick with accuracy := some 70 }
    ghostTable (4 / 5) (1 / 2) 30 70 rfl rfl (by norm_num) (by norm_num)

/-- C5: whenever a powered move hits, the damage returned by `calculateDamage` is an
integer at least 1, for every attacker, defender, type table and damage roll; this covers
in particular positive stats, positive power and a non-zero multiplier. -/
theorem C5_hit_damage_at_least_one (attacker defender : Pokemon) (move : Move)
    (data : TypeEffectivenessData) (accRoll dmgRoll power : ℚ)
    (hpow : move.power = some power)
    (hhit : (calculateDamage attacker defender (some move) data accRoll dmgRoll).hit = true) :
    1 ≤ (calculateDamage attacker defender (some move) data accRoll dmgRoll).damage := by
  cases hacc : accuracyCheckFails move accRoll with
  | true =>
    rw [calculateDamage_of_miss attacker defender move data accRoll dmgRoll power hpow hacc]
      at hhit
    simp at hhit
  | false =>
    rw [calculateDamage_of_hit attacker defender move data accRoll dmgRoll power hpow hacc]
    exact le_max_left _ _

/-- Witness for C5: `lick` (power 30, accuracy 100) with roll 50 against a ghost/psychic
defender. -/
theorem C5_hit_damage_at_least_one_witness :
    1 ≤ (calculateDamage gengar ghostPsychic (some lick) ghostTable (1 / 2) (1 / 2)).damage :=
  C5_hit_damage_at_least_one gengar ghostPsychic lick ghostTable (1 / 2) (1 / 2) 30 rfl
    (by
      rw [calculateDamage_of_hit gengar ghostPsychic lick ghostTable (1 / 2) (1 / 2) 30 rfl
        (by simp [accuracyCheckFails, lick]; norm_num)])

/-- C6: when the type table has a relation for the move's type, the multiplier used by
`calculateDamage` is the product, over the defender's types in order, of the per-type
factor of the specification (2 for double-damage-to, 0.5 for half-damage-to, 0 for
no-damage-to, 1 otherwise); the defender's type list is arbitrary (one type, two types,
repeated types). -/
theorem C6_multiplier_is_product (data : TypeEffectivenessData) (move : Move)
    (defender : Pokemon) (rel : DamageRelations) (hrel : data move.type.name = some rel) :
    effectivenessMultiplier data move defender =
      ((defenderTypes defender).map (specTypeFactor rel)).prod := by
  rw [effectivenessMultiplier, typeMatchup_of_some data move defender rel hrel,
    tempMultiplier_eq_prod]

/-- Witness for C6: a ghost move against a defender with the repeated type ghost/ghost. -/
theorem C6_multiplier_is_product_witness :
    effectivenessMultiplier ghostTable lick
        { ghostPsychic with types := [⟨⟨"ghost"⟩⟩, ⟨⟨"ghost"⟩⟩] } =
      ((defenderTypes { ghostPsychic with types := [⟨⟨"ghost"⟩⟩, ⟨⟨"ghost"⟩⟩] }).map
        (specTypeFactor ghostRelations)).prod :=
  C6_multiplier_is_product ghostTable lick
    { ghostPsychic with types := [⟨⟨"ghost"⟩⟩, ⟨⟨"ghost"⟩⟩] } ghostRelations
    (by simp [ghostTable, lick])

/-- C7: for a defender with the two types `t1` and `t2` and a move whose type relation
lists both in `double_damage_to`, the multiplier is exactly 4 and, when the powered move
hits, `calculateDamage` reports `super_effective` with
`damage = max(1, floor(4 * base * rollFactor))`. -/
theorem C7_dual_weakness_quadruples (attacker defender : Pokemon) (move : Move)
    (data : TypeEffectivenessData) (rel : DamageRelations) (t1 t2 : String)
    (accRoll dmgRoll power : ℚ)
    (hrel : data move.type.name = some rel)
    (htypes : defenderTypes defender = [t1, t2])
    (h1 : (⟨t1⟩ : NamedResource) ∈ rel.double_damage_to)
    (h2 : (⟨t2⟩ : NamedResource) ∈ rel.double_damage_to)
    (hpow : move.power = some power) (hacc : accuracyCheckFails move accRoll = false) :
    effectivenessMultiplier data move defender = 4 ∧
    calculateDamage attacker defender (some move) data accRoll dmgRoll =
      { damage := max 1 ⌊4 * baseDamage attacker.level power
            (baseStatOr1 attacker.stats "attack") (baseStatOr1 defender.stats "defense") *
              rollFactor dmgRoll⌋,
        hit := true,
        effectiveness := Effectiveness.super_effective } := by
  have hm : tempMultiplier rel (defenderTypes defender) = 4 := by
    rw [tempMultiplier_eq_prod, htypes]
    simp [specTypeFactor, h1, h2]
    norm_num
  have hmatch : typeMatchup data move defender = (4, Effectiveness.super_effective) := by
    rw [typeMatchup_of_some data move defender rel hrel, hm]
    have h42 : (2 : ℚ) ≤ 4 := by norm_num
    simp [effectivenessMessage, h42]
  refine ⟨by rw [effectivenessMultiplier, hmatch], ?_⟩
  rw [calculateDamage_of_hit attacker defender move data accRoll dmgRoll power hpow hacc,
    hmatch]
  simp only [DamageResult.mk.injEq, and_true]
  congr 2
  ring

/-- Witness for C7: `shadow-punch` against the ghost/psychic defender. -/
theorem C7_dual_weakness_quadruples_witness :
    effectivenessMultiplier ghostTable shadowPunch ghostPsychic = 4 ∧
    calculateDamage gengar ghostPsychic (some shadowPunch) ghostTable (1 / 2) (1 / 2) =
      { damage := max 1 ⌊4 * baseDamage gengar.level 60
            (baseStatOr1 gengar.stats "attack") (baseStatOr1 ghostPsychic.stats "defense") *
              rollFactor (1 / 2)⌋,
        hit := true,
        effectiveness := Effectiveness.super_effective } :=
  C7_dual_weakness_quadruples gengar ghostPsychic shadowPunch ghostTable ghostRelations
    "ghost" "psychic" (1 / 2) (1 / 2) 60 (by simp [ghostTable, shadowPunch]) rfl
    (by simp [ghostRelations]) (by simp [ghostRelations]) rfl
    (accuracyCheckFails_of_none _ _ rfl)

/-- C8: no-damage dominates. For every well-formed type table entry (no defending type
listed in two of the three sets), every move and every defender type list, if at least
one of the defender's types is listed in `no_damage_to` of the move's type relation, the
multiplier is exactly 0 and the tier reported on a hit is `no_effect`, whatever relation
the move's type has with the defender's other types. -/
theorem C8_no_damage_dominates (attacker defender : Pokemon) (move : Move)
    (data : TypeEffectivenessData) (rel : DamageRelations) (t : String)
    (accRoll dmgRoll power : ℚ)
    (hrel : data move.type.name = some rel)
    (hwf : WellFormedRelations rel)
    (ht : t ∈ defenderTypes defender)
    (hno : (⟨t⟩ : NamedResource) ∈ rel.no_damage_to)
    (hpow : move.power = some power) (hacc : accuracyCheckFails move accRoll = false) :
    effectivenessMultiplier data move defender = 0 ∧
    (calculateDamage attacker defender (some move) data accRoll dmgRoll).effectiveness =
      Effectiveness.no_effect := by
  have hnd : (⟨t⟩ : NamedResource) ∉ rel.double_damage_to := (hwf.1 _ hno).1
  have hnh : (⟨t⟩ : NamedResource) ∉ rel.half_damage_to := (hwf.1 _ hno).2
  have hm : tempMultiplier rel (defenderTypes defender) = 0 := by
    rw [tempMultiplier_eq_prod]
    apply List.prod_eq_zero
    rw [List.mem_map]
    exact ⟨t, ht, by simp [specTypeFactor, hno, hnd, hnh]⟩
  have hmatch : typeMatchup data move defender = (0, Effectiveness.no_effect) := by
    rw [typeMatchup_of_some data move defender rel hrel, hm]
    simp [effectivenessMessage]
  refine ⟨by rw [effectivenessMultiplier, hmatch], ?_⟩
  rw [calculateDamage_of_hit attacker defender move data accRoll dmgRoll power hpow hacc,
    hmatch]

/-- Witness for C8: a ghost move against a psychic/normal defender; psychic alone would
double the damage. -/
theorem C8_no_damage_dominates_witness :
    effectivenessMultiplier ghostTable shadowPunch
        { ghostPsychic with types := [⟨⟨"psychic"⟩⟩, ⟨⟨"normal"⟩⟩] } = 0 ∧
    (calculateDamage gengar { ghostPsychic with types := [⟨⟨"psychic"⟩⟩, ⟨⟨"normal"⟩⟩] }
      (some shadowPunch) ghostTable (1 / 2) (1 / 2)).effectiveness =
      Effectiveness.no_effect :=
  C8_no_damage_dominates gengar { ghostPsychic with types := [⟨⟨"psychic"⟩⟩, ⟨⟨"normal"⟩⟩] }
    shadowPunch ghostTable ghostRelations "normal" (1 / 2) (1 / 2) 60
    (by simp [ghostTable, shadowPunch]) (by simp [WellFormedRelations, ghostRelations])
    (by simp [defenderTypes]) (by simp [ghostRelations]) rfl
    (accuracyCheckFails_of_none _ _ rfl)

/-- C9: if the type table has no entry for the move's type, then for every defender
`calculateDamage` uses multiplier 1 and, when the powered move hits, returns the tier
`neutral` and `damage = max(1, floor(base * rollFactor))`; being a total function it
returns an outcome on every input. -/
theorem C9_missing_relation_is_neutral (attacker defender : Pokemon) (move : Move)
    (data : TypeEffectivenessData) (accRoll dmgRoll power : ℚ)
    (hnone : data move.type.name = none)
    (hpow : move.power = some power) (hacc : accuracyCheckFails move accRoll = false) :
    effectivenessMultiplier data move defender = 1 ∧
    calculateDamage attacker defender (some move) data accRoll dmgRoll =
      { damage := max 1 ⌊baseDamage attacker.level power
            (baseStatOr1 attacker.stats "attack") (baseStatOr1 defender.stats "defense") *
              rollFactor dmgRoll⌋,
        hit := true,
        effectiveness := Effectiveness.neutral } := by
  have hmatch := typeMatchup_of_none data move defender hnone
  refine ⟨by rw [effectivenessMultiplier, hmatch], ?_⟩
  rw [calculateDamage_of_hit attacker defender move data accRoll dmgRoll power hpow hacc,
    hmatch]
  simp

/-- Witness for C9: a move of type `normal`, which has no entry in `ghostTable`, against a
two-type defender. -/
theorem C9_missing_relation_is_neutral_witness :
    effectivenessMultiplier ghostTable zeroAccuracyMove ghostPsychic = 1 ∧
    calculateDamage gengar ghostPsychic (some zeroAccuracyMove) ghostTable (1 / 2) (1 / 2) =
      { damage := max 1 ⌊baseDamage gengar.level 40
            (baseStatOr1 gengar.stats "attack") (baseStatOr1 ghostPsychic.stats "defense") *
              rollFactor (1 / 2)⌋,
        hit := true,
        effectiveness := Effectiveness.neutral } :=
  C9_missing_relation_is_neutral gengar ghostPsychic zeroAccuracyMove ghostTable (1 / 2)
    (1 / 2) 40 (by simp [ghostTable, zeroAccuracyMove]) rfl
    (by simp [accuracyCheckFails, zeroAccuracyMove])

/-- C10: for every type table, move and defender type list of any length, the tier that
`calculateDamage` attaches to the multiplier `m` (thresholds `= 0`, `>= 2`,
`<= 0.5 and > 0`, else neutral) is the tier of the specification (`no_effect` for `m = 0`,
`not_very_effective` for `0 < m < 1`, `super_effective` for `m >= 2`, `neutral`
otherwise), and `m` never lies strictly between 0.5 and 1. -/
theorem C10_tier_matches_specification (data : TypeEffectivenessData) (move : Move)
    (defender : Pokemon) :
    (typeMatchup data move defender).2 = specTier (effectivenessMultiplier data move defender) ∧
    ¬ (1 / 2 < effectivenessMultiplier data move defender ∧
        effectivenessMultiplier data move defender < 1) := by
  unfold effectivenessMultiplier
  cases hrel : data move.type.name with
  | none =>
    rw [typeMatchup_of_none data move defender hrel]
    refine ⟨?_, by norm_num⟩
    simp [specTier]
  | some rel =>
    rw [typeMatchup_of_some data move defender rel hrel]
    exact effectivenessMessage_eq_specTier_of_zpow _ (tempMultiplier_zero_or_zpow rel _)

/-! ## Further lemmas on calculateDamage -/

theorem effectivenessMessage_ne_miss (m : ℚ) : effectivenessMessage m ≠ Effectiveness.miss := by
  unfold effectivenessMessage
  split_ifs <;> decide

theorem typeMatchup_ne_miss (data : TypeEffectivenessData) (move : Move) (defender : Pokemon) :
    (typeMatchup data move defender).2 ≠ Effectiveness.miss := by
  unfold typeMatchup
  split
  · exact effectivenessMessage_ne_miss _
  · decide

theorem baseStatOr1_ne_zero (stats : List StatEntry) (name : String) :
    baseStatOr1 stats name ≠ 0 := by
  unfold baseStatOr1
  split
  · split_ifs with h
    · exact one_ne_zero
    · exact h
  · exact one_ne_zero

theorem baseStatOr1_of_missing (stats : List StatEntry) (name : String)
    (h : statMissing stats name = true) : baseStatOr1 stats name = 1 := by
  unfold statMissing at h
  unfold baseStatOr1
  split at h
  · next s hs =>
    have h0 : s.base_stat = 0 := by simpa using h
    simp [h0]
  · rfl

/-- The damage of every outcome is non-negative. -/
theorem calculateDamage_damage_nonneg (attacker defender : Pokemon) (move : Option Move)
    (data : TypeEffectivenessData) (accRoll dmgRoll : ℚ) :
    0 ≤ (calculateDamage attacker defender move data accRoll dmgRoll).damage := by
  unfold calculateDamage
  split
  · simp
  · split
    · simp
    · split_ifs
      · simp
      · exact le_trans zero_le_one (le_max_left _ _)

/-- C12: in `calculateDamage` an `attack` stat of the attacker and a `defense` stat of the
defender that are missing (no entry in the stats list, or an entry with `base_stat` 0) are
each replaced by 1, and the divisor `defenderDefense` computed for any combatant `other`
is never zero, so the division `attackerAttack / defenderDefense` is defined. -/
theorem C12_missing_stats_default_to_one (attacker defender other : Pokemon)
    (hatk : statMissing attacker.stats "attack" = true)
    (hdef : statMissing defender.stats "defense" = true) :
    baseStatOr1 attacker.stats "attack" = 1 ∧
    baseStatOr1 defender.stats "defense" = 1 ∧
    baseStatOr1 other.stats "defense" ≠ 0 :=
  ⟨baseStatOr1_of_missing _ _ hatk, baseStatOr1_of_missing _ _ hdef,
    baseStatOr1_ne_zero _ _⟩

/-- Witness for C12: `statless` has no `attack` entry and a `defense` entry of 0. -/
theorem C12_missing_stats_default_to_one_witness :
    baseStatOr1 statless.stats "attack" = 1 ∧
    baseStatOr1 statless.stats "defense" = 1 ∧
    baseStatOr1 snorlax.stats "defense" ≠ 0 :=
  C12_missing_stats_default_to_one statless statless snorlax
    (by simp [statMissing, statless]) (by simp [statMissing, statless])

/-- C13: a powered move whose accuracy is `null` always hits: for every pair of random
draws `calculateDamage` returns `hit = true` and an effectiveness other than `miss`. -/
theorem C13_null_accuracy_always_hits (attacker defender : Pokemon) (move : Move)
    (data : TypeEffectivenessData) (accRoll dmgRoll power : ℚ)
    (hpow : move.power = some power) (hacc : move.accuracy = none) :
    (calculateDamage attacker defender (some move) data accRoll dmgRoll).hit = true ∧
    (calculateDamage attacker defender (some move) data accRoll dmgRoll).effectiveness ≠
      Effectiveness.miss := by
  rw [calculateDamage_of_hit attacker defender move data accRoll dmgRoll power hpow
    (accuracyCheckFails_of_none move accRoll hacc)]
  exact ⟨rfl, typeMatchup_ne_miss data move defender⟩

/-- Witness for C13: `shadow-punch` has power 60 and no accuracy. -/
theorem C13_null_accuracy_always_hits_witness :
    (calculateDamage gengar snorlax (some shadowPunch) ghostTable (99 / 100) (1 / 2)).hit =
      true ∧
    (calculateDamage gengar snorlax (some shadowPunch) ghostTable (99 / 100)
      (1 / 2)).effectiveness ≠ Effectiveness.miss :=
  C13_null_accuracy_always_hits gengar snorlax shadowPunch ghostTable (99 / 100) (1 / 2) 60
    rfl rfl

/-! ## Lemmas on performAttack -/

theorem newDefenderHp_nonneg (defender : Pokemon) (damage : ℤ) :
    0 ≤ newDefenderHp defender damage :=
  le_max_left _ _

theorem newDefenderHp_le (defender : Pokemon) (damage : ℤ) (hd : 0 ≤ damage)
    (hhp : 0 ≤ defender.currentHp) : newDefenderHp defender damage ≤ defender.currentHp := by
  unfold newDefenderHp
  have hd' : (0 : ℚ) ≤ (damage : ℚ) := by exact_mod_cast hd
  exact max_le hhp (by linarith)

theorem cell_writeHp_same (s : BattleState) (setter : Setter) (hp : ℚ) :
    (s.writeHp setter hp).cell setter =
      (s.cell setter).map (fun prev => { prev with currentHp := hp }) := by
  cases setter <;> rfl

theorem cell_writeHp_other (s : BattleState) (setter other : Setter) (hp : ℚ)
    (h : other ≠ setter) : (s.writeHp setter hp).cell other = s.cell other := by
  cases setter <;> cases other <;> first | rfl | exact absurd rfl h

theorem performAttack_cell (attacker defender : Pokemon) (setter other : Setter) (move : Move)
    (isOpponent : Bool) (data : TypeEffectivenessData) (accRoll dmgRoll : ℚ)
    (s : BattleState) :
    (performAttack attacker defender setter move isOpponent data accRoll dmgRoll s).cell other =
      ((s.appendLog (actionLogEntry attacker defender move isOpponent
          (calculateDamage attacker defender (some move) data accRoll dmgRoll))).writeHp setter
        (newDefenderHp defender
          (calculateDamage attacker defender (some move) data accRoll dmgRoll).damage)).cell
        other := by
  unfold performAttack
  simp only
  split_ifs <;> cases other <;> rfl

theorem performAttack_cell_same (attacker defender : Pokemon) (setter : Setter) (move : Move)
    (isOpponent : Bool) (data : TypeEffectivenessData) (accRoll dmgRoll : ℚ)
    (s : BattleState) (hcell : s.cell setter = some defender) :
    (performAttack attacker defender setter move isOpponent data accRoll dmgRoll s).cell
        setter =
      some { defender with currentHp := (newDefenderHp defender
        (calculateDamage attacker defender (some move) data accRoll dmgRoll).damage) } := by
  rw [performAttack_cell, cell_writeHp_same]
  have h : (s.appendLog (actionLogEntry attacker defender move isOpponent
      (calculateDamage attacker defender (some move) data accRoll dmgRoll))).cell setter =
      s.cell setter := by
    cases setter <;> rfl
  rw [h, hcell]
  rfl

theorem performAttack_cell_other (attacker defender : Pokemon) (setter other : Setter)
    (move : Move) (isOpponent : Bool) (data : TypeEffectivenessData) (accRoll dmgRoll : ℚ)
    (s : BattleState) (h : other ≠ setter) :
    (performAttack attacker defender setter move isOpponent data accRoll dmgRoll s).cell
        other = s.cell other := by
  rw [performAttack_cell, cell_writeHp_other _ _ _ _ h]
  cases other <;> rfl

/-- Outcome of `performAttack` when the defender is left standing. -/
theorem performAttack_of_standing (attacker defender : Pokemon) (setter : Setter) (move : Move)
    (isOpponent : Bool) (data : TypeEffectivenessData) (accRoll dmgRoll : ℚ)
    (s : BattleState)
    (hpos : 0 < newDefenderHp defender
      (calculateDamage attacker defender (some move) data accRoll dmgRoll).damage) :
    performAttack attacker defender setter move isOpponent data accRoll dmgRoll s =
      (s.appendLog (actionLogEntry attacker defender move isOpponent
          (calculateDamage attacker defender (some move) data accRoll dmgRoll))).writeHp setter
        (newDefenderHp defender
          (calculateDamage attacker defender (some move) data accRoll dmgRoll).damage) := by
  unfold performAttack
  simp only
  rw [if_neg (not_le.2 hpos)]

/-- Outcome of `performAttack` when the defender faints. -/
theorem performAttack_of_fainted (attacker defender : Pokemon) (setter : Setter) (move : Move)
    (isOpponent : Bool) (data : TypeEffectivenessData) (accRoll dmgRoll : ℚ)
    (s : BattleState)
    (hzero : newDefenderHp defender
      (calculateDamage attacker defender (some move) data accRoll dmgRoll).damage = 0) :
    performAttack attacker defender setter move isOpponent data accRoll dmgRoll s =
      { (BattleState.appendLog ((s.appendLog (actionLogEntry attacker defender move isOpponent
          (calculateDamage attacker defender (some move) data accRoll dmgRoll))).writeHp setter
        (newDefenderHp defender
          (calculateDamage attacker defender (some move) data accRoll dmgRoll).damage))
          (faintedLogEntry defender)) with battleOver := true, isPlayerTurn := false } := by
  unfold performAttack
  simp only
  rw [if_pos (le_of_eq hzero)]

theorem writeHp_battleLog (s : BattleState) (setter : Setter) (hp : ℚ) :
    (s.writeHp setter hp).battleLog = s.battleLog := by
  cases setter <;> rfl

theorem writeHp_battleOver (s : BattleState) (setter : Setter) (hp : ℚ) :
    (s.writeHp setter hp).battleOver = s.battleOver := by
  cases setter <;> rfl

theorem writeHp_isPlayerTurn (s : BattleState) (setter : Setter) (hp : ℚ) :
    (s.writeHp setter hp).isPlayerTurn = s.isPlayerTurn := by
  cases setter <;> rfl

theorem actionLogType_ne_fainted (e : Effectiveness) : actionLogType e ≠ LogType.fainted := by
  cases e <;> decide

theorem calculateDamage_damage_of_not_hit (attacker defender : Pokemon) (move : Option Move)
    (data : TypeEffectivenessData) (accRoll dmgRoll : ℚ)
    (h : (calculateDamage attacker defender move data accRoll dmgRoll).hit = false) :
    (calculateDamage attacker defender move data accRoll dmgRoll).damage = 0 := by
  cases move with
  | none => rfl
  | some mv =>
    cases hpow : mv.power with
    | none => simp [calculateDamage, hpow]
    | some power =>
      cases hacc : accuracyCheckFails mv accRoll with
      | true =>
        rw [calculateDamage_of_miss attacker defender mv data accRoll dmgRoll power hpow hacc]
      | false =>
        rw [calculateDamage_of_hit attacker defender mv data accRoll dmgRoll power hpow hacc]
          at h
        simp at h

/-- The hit of `shadow-punch` (ghost, power 60, no accuracy) by gengar on a ghost/psychic
defender with defense 100, at the damage draw 1/2: `floor(19.16 * 4 * 0.925) = 70`. -/
theorem shadowPunch_on_ghostPsychic (defender : Pokemon) (accRoll : ℚ)
    (htypes : defender.types = ghostPsychic.types)
    (hstats : defender.stats = ghostPsychic.stats) :
    calculateDamage gengar defender (some shadowPunch) ghostTable accRoll (1 / 2) =
      { damage := 70, hit := true, effectiveness := Effectiveness.super_effective } := by
  have hm : typeMatchup ghostTable shadowPunch defender =
      (4, Effectiveness.super_effective) := by
    simp [typeMatchup, ghostTable, shadowPunch, ghostRelations, tempMultiplier,
      defenderTypes, htypes, ghostPsychic, multiplierStep, listsType, effectivenessMessage]
    norm_num
  rw [calculateDamage_of_hit gengar defender shadowPunch ghostTable accRoll (1 / 2) 60 rfl
    (accuracyCheckFails_of_none _ _ rfl), hm, hstats]
  have hval : baseDamage gengar.level 60 (baseStatOr1 gengar.stats "attack")
      (baseStatOr1 ghostPsychic.stats "defense") * (4, Effectiveness.super_effective).1 *
        rollFactor (1 / 2) = 17723 / 250 := by
    simp [baseDamage, rollFactor, baseStatOr1, gengar, ghostPsychic]; norm_num
  have hfloor : ⌊((17723 : ℚ) / 250)⌋ = 70 := by
    rw [Int.floor_eq_iff]; norm_num
  rw [hval, hfloor]
  simp

/-- The hit of `tackle` (normal, power 40, accuracy 100) on gengar by an attacker with
attack 100, at the accuracy roll 50 and the damage draw 1/2:
`floor((22 * 40 * (100 / 60) / 50 + 2) * 0.925) = 28`. -/
theorem tackle_on_gengar (attacker : Pokemon) (hlevel : attacker.level = 50)
    (hstats : attacker.stats = ghostPsychic.stats) :
    calculateDamage attacker gengar (some tackle) ghostTable (1 / 2) (1 / 2) =
      { damage := 28, hit := true, effectiveness := Effectiveness.neutral } := by
  have hacc : accuracyCheckFails tackle (1 / 2) = false := by
    simp [accuracyCheckFails, tackle]; norm_num
  have hm : typeMatchup ghostTable tackle gengar = (1, Effectiveness.neutral) := by
    simp [typeMatchup, ghostTable, tackle]
  rw [calculateDamage_of_hit attacker gengar tackle ghostTable (1 / 2) (1 / 2) 40 rfl hacc,
    hm, hstats, hlevel]
  have hval : baseDamage 50 40 (baseStatOr1 ghostPsychic.stats "attack")
      (baseStatOr1 gengar.stats "defense") * (1, Effectiveness.neutral).1 *
        rollFactor (1 / 2) = 3478 / 120 := by
    simp [baseDamage, rollFactor, baseStatOr1, gengar, ghostPsychic]; norm_num
  have hfloor : ⌊((3478 : ℚ) / 120)⌋ = 28 := by
    rw [Int.floor_eq_iff]; norm_num
  rw [hval, hfloor]
  simp

/-- When the cell written by `performAttack` holds the very snapshot passed as `defender`
and that snapshot satisfies `0 ≤ currentHp ≤ hp base stat`, the cell satisfies it again
afterwards. -/
theorem performAttack_bounds_of_current (attacker defender : Pokemon) (setDefender : Setter)
    (move : Move) (isOpponent : Bool) (data : TypeEffectivenessData) (accRoll dmgRoll : ℚ)
    (s : BattleState) (hpStat : ℚ)
    (hcell : s.cell setDefender = some defender)
    (hstat : hpBaseStat defender = some hpStat)
    (h0 : 0 ≤ defender.currentHp) (h1 : defender.currentHp ≤ hpStat) :
    ∃ after : Pokemon,
      (performAttack attacker defender setDefender move isOpponent data accRoll dmgRoll
        s).cell setDefender = some after ∧
      hpBaseStat after = some hpStat ∧ 0 ≤ after.currentHp ∧ after.currentHp ≤ hpStat := by
  refine ⟨_, performAttack_cell_same attacker defender setDefender move isOpponent data
    accRoll dmgRoll s hcell, hstat, newDefenderHp_nonneg _ _, ?_⟩
  exact le_trans (newDefenderHp_le defender _
    (calculateDamage_damage_nonneg attacker defender (some move) data accRoll dmgRoll) h0) h1

/-- When the cell written by `performAttack` holds the very snapshot passed as `defender`,
it afterwards holds that snapshot with `currentHp = max(0, currentHp - damage)`; the
other combatant cell is unchanged in every case. -/
theorem performAttack_health_of_current (attacker defender : Pokemon)
    (setDefender setAttacker : Setter) (move : Move) (isOpponent : Bool)
    (data : TypeEffectivenessData) (accRoll dmgRoll : ℚ) (s : BattleState)
    (hcell : s.cell setDefender = some defender) (hother : setAttacker ≠ setDefender) :
    (performAttack attacker defender setDefender move isOpponent data accRoll dmgRoll s).cell
        setDefender =
      some { defender with currentHp := (max 0 (defender.currentHp -
        (calculateDamage attacker defender (some move) data accRoll dmgRoll).damage)) } ∧
    (performAttack attacker defender setDefender move isOpponent data accRoll dmgRoll s).cell
        setAttacker = s.cell setAttacker :=
  ⟨performAttack_cell_same attacker defender setDefender move isOpponent data accRoll dmgRoll
      s hcell,
    performAttack_cell_other attacker defender setDefender setAttacker move isOpponent data
      accRoll dmgRoll s hother⟩

/-- When the cell written by `performAttack` holds the very snapshot passed as `defender`,
with positive `currentHp`, a status move or a miss leaves the cell as it was, appends only
the action's own log entry and leaves `battleOver` as it was. -/
theorem performAttack_zero_damage_of_current (attacker defender : Pokemon) (setDefender : Setter)
    (move : Move) (isOpponent : Bool) (data : TypeEffectivenessData) (accRoll dmgRoll : ℚ)
    (s : BattleState)
    (hcell : s.cell setDefender = some defender) (hpos : 0 < defender.currentHp)
    (hzero : move.power = none ∨
      (calculateDamage attacker defender (some move) data accRoll dmgRoll).hit = false) :
    (performAttack attacker defender setDefender move isOpponent data accRoll dmgRoll s).cell
        setDefender = some defender ∧
    (performAttack attacker defender setDefender move isOpponent data accRoll dmgRoll
        s).battleLog =
      s.battleLog ++ [actionLogEntry attacker defender move isOpponent
        (calculateDamage attacker defender (some move) data accRoll dmgRoll)] ∧
    (actionLogEntry attacker defender move isOpponent
        (calculateDamage attacker defender (some move) data accRoll dmgRoll)).type ≠
      LogType.fainted ∧
    (performAttack attacker defender setDefender move isOpponent data accRoll dmgRoll
        s).battleOver = s.battleOver := by
  have hdmg : (calculateDamage attacker defender (some move) data accRoll dmgRoll).damage =
      0 := by
    rcases hzero with hp | hmiss
    · simp [calculateDamage, hp]
    · exact calculateDamage_damage_of_not_hit _ _ _ _ _ _ hmiss
  have hhp : newDefenderHp defender
      (calculateDamage attacker defender (some move) data accRoll dmgRoll).damage =
      defender.currentHp := by
    rw [hdmg]
    simp [newDefenderHp, le_of_lt hpos]
  have hstand : 0 < newDefenderHp defender
      (calculateDamage attacker defender (some move) data accRoll dmgRoll).damage := by
    rw [hhp]; exact hpos
  refine ⟨?_, ?_, actionLogType_ne_fainted _, ?_⟩
  · rw [performAttack_cell_same attacker defender setDefender move isOpponent data accRoll
      dmgRoll s hcell, hhp]
  · rw [performAttack_of_standing attacker defender setDefender move isOpponent data accRoll
      dmgRoll s hstand, writeHp_battleLog]
    rfl
  · rw [performAttack_of_standing attacker defender setDefender move isOpponent data accRoll
      dmgRoll s hstand, writeHp_battleOver]
    rfl

/-- The finishing blow: `shadow-punch` takes the opponent with 10 health left to 0. -/
theorem resolvedHp_finishing (accRoll : ℚ) :
    resolvedHp gengar weakOpponent shadowPunch ghostTable accRoll (1 / 2) = 0 := by
  unfold resolvedHp
  rw [shadowPunch_on_ghostPsychic weakOpponent accRoll rfl rfl]
  simp [newDefenderHp, weakOpponent]
  norm_num

/-- The opening blow: `shadow-punch` takes the fresh opponent from 80 to 10. -/
theorem resolvedHp_opening (accRoll : ℚ) :
    resolvedHp gengar freshOpponent shadowPunch ghostTable accRoll (1 / 2) = 10 := by
  unfold resolvedHp
  rw [shadowPunch_on_ghostPsychic freshOpponent accRoll rfl rfl]
  simp [newDefenderHp, freshOpponent, ghostPsychic]
  norm_num

/-- C17: `performAttack` writes the health `resolvedHp`, which is 0 or positive. If it is
0, `battleOver` becomes true and the log grows by the action's entry immediately followed
by the `fainted` entry; if it is positive, the log grows by exactly the action's entry and
`battleOver` and `isPlayerTurn` are unchanged. -/
theorem C17_fainting_transition (attacker defender : Pokemon) (setDefender : Setter)
    (move : Move) (isOpponent : Bool) (data : TypeEffectivenessData) (accRoll dmgRoll : ℚ)
    (s : BattleState) (hcell : s.cell setDefender = some defender) :
    (performAttack attacker defender setDefender move isOpponent data accRoll dmgRoll s).cell
        setDefender =
      some { defender with
        currentHp := (resolvedHp attacker defender move data accRoll dmgRoll) } ∧
    (resolvedHp attacker defender move data accRoll dmgRoll = 0 ∨
      0 < resolvedHp attacker defender move data accRoll dmgRoll) ∧
    (resolvedHp attacker defender move data accRoll dmgRoll = 0 →
      (performAttack attacker defender setDefender move isOpponent data accRoll dmgRoll
        s).battleOver = true ∧
      (performAttack attacker defender setDefender move isOpponent data accRoll dmgRoll
        s).battleLog =
        s.battleLog ++ [actionLogEntry attacker defender move isOpponent
          (calculateDamage attacker defender (some move) data accRoll dmgRoll),
          faintedLogEntry defender]) ∧
    (0 < resolvedHp attacker defender move data accRoll dmgRoll →
      (performAttack attacker defender setDefender move isOpponent data accRoll dmgRoll
        s).battleLog =
        s.battleLog ++ [actionLogEntry attacker defender move isOpponent
          (calculateDamage attacker defender (some move) data accRoll dmgRoll)] ∧
      (performAttack attacker defender setDefender move isOpponent data accRoll dmgRoll
        s).battleOver = s.battleOver ∧
      (performAttack attacker defender setDefender move isOpponent data accRoll dmgRoll
        s).isPlayerTurn = s.isPlayerTurn) := by
  refine ⟨performAttack_cell_same attacker defender setDefender move isOpponent data accRoll
    dmgRoll s hcell, ?_, ?_, ?_⟩
  · rcases eq_or_lt_of_le (newDefenderHp_nonneg defender
      (calculateDamage attacker defender (some move) data accRoll dmgRoll).damage) with h | h
    · exact Or.inl h.symm
    · exact Or.inr h
  · intro hzero
    rw [performAttack_of_fainted attacker defender setDefender move isOpponent data accRoll
      dmgRoll s hzero]
    refine ⟨rfl, ?_⟩
    show ((s.appendLog _).writeHp setDefender _).battleLog ++ [faintedLogEntry defender] = _
    rw [writeHp_battleLog]
    simp [BattleState.appendLog]
  · intro hpos
    rw [performAttack_of_standing attacker defender setDefender move isOpponent data accRoll
      dmgRoll s hpos, writeHp_battleLog, writeHp_battleOver, writeHp_isPlayerTurn]
    exact ⟨rfl, rfl, rfl⟩

/-- Witness for C17: the finishing blow on the opponent with 10 health left (fainting) and
the opening blow on the fresh opponent (left with 10 health). -/
theorem C17_fainting_transition_witness :
    ((performAttack gengar weakOpponent Setter.setOpponentPokemon shadowPunch false ghostTable
        (1 / 2) (1 / 2) finishingState).battleOver = true ∧
      (performAttack gengar weakOpponent Setter.setOpponentPokemon shadowPunch false ghostTable
        (1 / 2) (1 / 2) finishingState).battleLog =
        finishingState.battleLog ++ [actionLogEntry gengar weakOpponent shadowPunch false
          (calculateDamage gengar weakOpponent (some shadowPunch) ghostTable (1 / 2) (1 / 2)),
          faintedLogEntry weakOpponent]) ∧
    ((performAttack gengar freshOpponent Setter.setOpponentPokemon shadowPunch false ghostTable
        (1 / 2) (1 / 2) openingState).battleLog =
        openingState.battleLog ++ [actionLogEntry gengar freshOpponent shadowPunch false
          (calculateDamage gengar freshOpponent (some shadowPunch) ghostTable (1 / 2)
            (1 / 2))] ∧
      (performAttack gengar freshOpponent Setter.setOpponentPokemon shadowPunch false ghostTable
        (1 / 2) (1 / 2) openingState).battleOver = openingState.battleOver ∧
      (performAttack gengar freshOpponent Setter.setOpponentPokemon shadowPunch false ghostTable
        (1 / 2) (1 / 2) openingState).isPlayerTurn = openingState.isPlayerTurn) :=
  ⟨(C17_fainting_transition gengar weakOpponent Setter.setOpponentPokemon shadowPunch false
      ghostTable (1 / 2) (1 / 2) finishingState rfl).2.2.1 (resolvedHp_finishing (1 / 2)),
    (C17_fainting_transition gengar freshOpponent Setter.setOpponentPokemon shadowPunch false
      ghostTable (1 / 2) (1 / 2) openingState rfl).2.2.2
      (by rw [resolvedHp_opening]; norm_num)⟩

/-! ## Evaluation of the handlers -/

theorem randomMove_weakOpponent : randomMove weakOpponent (1 / 2) = some tackle := by
  have hfloor : ⌊(2⁻¹ : ℚ)⌋ = 0 := by
    rw [Int.floor_eq_iff]; norm_num
  simp [randomMove, usableMoves, weakOpponent, tackle, hfloor]

/-- The player's finishing blow, resolved by the handler of the render `finishingState`. -/
theorem handlePlayerAttack_finishing (accRoll : ℚ) :
    handlePlayerAttack finishingState shadowPunch ghostTable accRoll (1 / 2) finishingState =
      { state := faintedState, timeoutScheduled := true } := by
  have hzero := resolvedHp_finishing accRoll
  unfold resolvedHp at hzero
  have hp : handlePlayerAttack finishingState shadowPunch ghostTable accRoll (1 / 2)
      finishingState =
      { state := (performAttack gengar weakOpponent Setter.setOpponentPokemon
          shadowPunch false ghostTable accRoll (1 / 2) finishingState),
        timeoutScheduled := true } := rfl
  rw [hp, performAttack_of_fainted _ _ _ _ _ _ _ _ _ hzero, hzero,
    shadowPunch_on_ghostPsychic weakOpponent accRoll rfl rfl]
  rfl

/-- The timer callback of that call, run on the live state `faintedState`. -/
theorem handlePlayerAttackTimeout_finishing :
    handlePlayerAttackTimeout finishingState ghostTable (1 / 2) (1 / 2) (1 / 2) faintedState =
      { state := attackedAfterFaintState, timeoutScheduled := true } := by
  have hstand : bothStanding finishingState.opponentPokemon finishingState.playerPokemon =
      true := by
    simp [bothStanding, finishingState, weakOpponent, gengar]
  have hcalc := tackle_on_gengar weakOpponent rfl rfl
  have hhp : newDefenderHp gengar 28 = 32 := by
    simp [newDefenderHp, gengar]; norm_num
  have hpos : 0 < newDefenderHp gengar
      (calculateDamage weakOpponent gengar (some tackle) ghostTable (1 / 2) (1 / 2)).damage := by
    rw [hcalc, hhp]; norm_num
  unfold handlePlayerAttackTimeout
  rw [if_pos hstand]
  have ho : handleOpponentAttack finishingState ghostTable (1 / 2) (1 / 2) (1 / 2)
      { faintedState with isPlayerTurn := false } =
      { state := (performAttack weakOpponent gengar Setter.setPlayerPokemon tackle true
          ghostTable (1 / 2) (1 / 2) { faintedState with isPlayerTurn := false }),
        timeoutScheduled := true } := by
    simp only [handleOpponentAttack, finishingState, randomMove_weakOpponent,
      Bool.false_eq_true, if_false]
  rw [ho, performAttack_of_standing _ _ _ _ _ _ _ _ _ hpos, hcalc, hhp]
  rfl

/-- The player's first attack, resolved by the handler of the render `openingState`. -/
theorem handlePlayerAttack_opening (accRoll : ℚ) :
    handlePlayerAttack openingState shadowPunch ghostTable accRoll (1 / 2) openingState =
      { state := afterOpeningState, timeoutScheduled := true } := by
  have h10 := resolvedHp_opening accRoll
  unfold resolvedHp at h10
  have hpos : 0 < newDefenderHp freshOpponent
      (calculateDamage gengar freshOpponent (some shadowPunch) ghostTable accRoll
        (1 / 2)).damage := by
    rw [h10]; norm_num
  have hp : handlePlayerAttack openingState shadowPunch ghostTable accRoll (1 / 2)
      openingState =
      { state := (performAttack gengar freshOpponent Setter.setOpponentPokemon
          shadowPunch false ghostTable accRoll (1 / 2) openingState),
        timeoutScheduled := true } := rfl
  rw [hp, performAttack_of_standing _ _ _ _ _ _ _ _ _ hpos, h10,
    shadowPunch_on_ghostPsychic freshOpponent accRoll rfl rfl]
  rfl

/-- A second attack of the player, resolved by the handler of the render
`afterOpeningState`. -/
theorem handlePlayerAttack_again (accRoll : ℚ) :
    handlePlayerAttack afterOpeningState shadowPunch ghostTable accRoll (1 / 2)
        afterOpeningState =
      { state := doubleAttackState, timeoutScheduled := true } := by
  have hzero := resolvedHp_finishing accRoll
  unfold resolvedHp at hzero
  have hp : handlePlayerAttack afterOpeningState shadowPunch ghostTable accRoll (1 / 2)
      afterOpeningState =
      { state := (performAttack gengar weakOpponent Setter.setOpponentPokemon
          shadowPunch false ghostTable accRoll (1 / 2) afterOpeningState),
        timeoutScheduled := true } := rfl
  rw [hp, performAttack_of_fainted _ _ _ _ _ _ _ _ _ hzero, hzero,
    shadowPunch_on_ghostPsychic weakOpponent accRoll rfl rfl]
  rfl

/-- After an opponent action that leaves the player standing, resolved by a handler whose
render had both combatants standing, the timer callback hands the turn to the player and
the battle is not over (when it was not over before). -/
theorem opponent_action_returns_turn (c s : BattleState) (opponent player : Pokemon)
    (move : Move) (data : TypeEffectivenessData) (moveRoll accRoll dmgRoll : ℚ)
    (ho : c.opponentPokemon = some opponent) (hp : c.playerPokemon = some player)
    (hstanding : bothStanding c.playerPokemon c.opponentPokemon = true)
    (hc : c.battleOver = false) (hs : s.battleOver = false)
    (hmove : randomMove opponent moveRoll = some move)
    (hpos : 0 < resolvedHp opponent player move data accRoll dmgRoll) :
    (handleOpponentAttackTimeout c
      (handleOpponentAttack c data moveRoll accRoll dmgRoll s).state).isPlayerTurn = true ∧
    (handleOpponentAttackTimeout c
      (handleOpponentAttack c data moveRoll accRoll dmgRoll s).state).battleOver = false := by
  have hsync : (handleOpponentAttack c data moveRoll accRoll dmgRoll s).state =
      performAttack opponent player Setter.setPlayerPokemon move true data accRoll dmgRoll
        s := by
    simp [handleOpponentAttack, ho, hp, hc, hmove]
  unfold handleOpponentAttackTimeout
  rw [if_pos hstanding, hsync, performAttack_of_standing _ _ _ _ _ _ _ _ _ hpos]
  exact ⟨rfl, hs⟩

/-- C18 (code defect): the player's attack takes the opponent's `currentHp` from 10 to 0
and logs the `fainted` entry; the timer callback of that same `handlePlayerAttack` call
tests the health captured before the attack, so it still invokes the opponent's attack:
the player's `currentHp` drops from 60 to 32 and a further entry follows the `fainted`
entry in the log. -/
theorem C18_fainted_opponent_still_attacks :
    handlePlayerAttack finishingState shadowPunch ghostTable (1 / 2) (1 / 2) finishingState =
      { state := faintedState, timeoutScheduled := true } ∧
    faintedState.opponentPokemon.map (fun p => p.currentHp) = some 0 ∧
    faintedState.playerPokemon.map (fun p => p.currentHp) = some 60 ∧
    faintedState.battleLog.map (fun e => e.type) =
      [LogType.super_effective, LogType.fainted] ∧
    handlePlayerAttackTimeout finishingState ghostTable (1 / 2) (1 / 2) (1 / 2) faintedState =
      { state := attackedAfterFaintState, timeoutScheduled := true } ∧
    attackedAfterFaintState.playerPokemon.map (fun p => p.currentHp) = some 32 ∧
    attackedAfterFaintState.battleLog.map (fun e => e.type) =
      [LogType.super_effective, LogType.fainted, LogType.neutral] :=
  ⟨handlePlayerAttack_finishing (1 / 2), rfl, rfl, rfl, handlePlayerAttackTimeout_finishing,
    rfl, rfl⟩

/-- C19 (code defect): after the player's attack has been resolved without fainting the
opponent, the live state still has `isPlayerTurn = true` and `battleOver = false` (the
flag is only cleared by the timer callback), so a second `handlePlayerAttack` before the
opponent has acted is accepted: it takes the opponent from 10 to 0 and ends the battle. -/
theorem C19_second_player_attack_accepted :
    handlePlayerAttack openingState shadowPunch ghostTable (1 / 2) (1 / 2) openingState =
      { state := afterOpeningState, timeoutScheduled := true } ∧
    afterOpeningState.isPlayerTurn = true ∧ afterOpeningState.battleOver = false ∧
    afterOpeningState.opponentPokemon.map (fun p => p.currentHp) = some 10 ∧
    handlePlayerAttack afterOpeningState shadowPunch ghostTable (1 / 2) (1 / 2)
        afterOpeningState =
      { state := doubleAttackState, timeoutScheduled := true } ∧
    doubleAttackState.opponentPokemon.map (fun p => p.currentHp) = some 0 ∧
    doubleAttackState.battleLog.map (fun e => e.type) =
      [LogType.super_effective, LogType.super_effective, LogType.fainted] ∧
    doubleAttackState.battleOver = true :=
  ⟨handlePlayerAttack_opening (1 / 2), rfl, rfl, rfl, handlePlayerAttack_again (1 / 2), rfl,
    rfl, rfl⟩

/-- A `handlePlayerAttack` whose render has `battleOver` true, `isPlayerTurn` false or an
absent combatant returns at the guard of line 228: the live state is unchanged and no
timer is scheduled. The handler is the one of the current render wherever the code
invokes it (the move buttons), so these are the live values. -/
theorem handlePlayerAttack_rejected (c s : BattleState) (move : Move)
    (data : TypeEffectivenessData) (accRoll dmgRoll : ℚ)
    (hplayer : c.battleOver = true ∨ c.isPlayerTurn = false ∨
      c.playerPokemon = none ∨ c.opponentPokemon = none) :
    handlePlayerAttack c move data accRoll dmgRoll s =
      { state := s, timeoutScheduled := false } := by
  unfold handlePlayerAttack
  split
  · next p o hp ho =>
    rcases hplayer with h | h | h | h
    · simp [h]
    · simp [h]
    · rw [h] at hp; cases hp
    · rw [h] at ho; cases ho
  · rfl

/-! ## Opponent move selection -/

theorem mem_usableMoves (opponent : Pokemon) (move : Move) :
    move ∈ usableMoves opponent ↔ move ∈ opponent.moves ∧ move.power ≠ none := by
  simp [usableMoves, List.mem_filter, Option.isSome_iff_ne_none]

/-- With a usable move and a draw in `[0, 1)` the index `floor(r * n)` is within the `n`
usable moves and `randomMove` returns the usable move at that index. -/
theorem randomMove_of_usable (opponent : Pokemon) (moveRoll : ℚ)
    (hmoves : ∃ m ∈ opponent.moves, m.power ≠ none)
    (hr0 : 0 ≤ moveRoll) (hr1 : moveRoll < 1) :
    0 ≤ ⌊moveRoll * (usableMoves opponent).length⌋ ∧
    ⌊moveRoll * (usableMoves opponent).length⌋ < (usableMoves opponent).length ∧
    ∃ move, randomMove opponent moveRoll = some move ∧ move ∈ usableMoves opponent := by
  obtain ⟨m, hm, hpow⟩ := hmoves
  have hmem : m ∈ usableMoves opponent := (mem_usableMoves opponent m).2 ⟨hm, hpow⟩
  have hlen : 0 < (usableMoves opponent).length := List.length_pos_of_mem hmem
  have hlenq : (0 : ℚ) < ((usableMoves opponent).length : ℚ) := by exact_mod_cast hlen
  have h0 : 0 ≤ ⌊moveRoll * (usableMoves opponent).length⌋ :=
    Int.floor_nonneg.2 (mul_nonneg hr0 (le_of_lt hlenq))
  have h1 : ⌊moveRoll * (usableMoves opponent).length⌋ <
      ((usableMoves opponent).length : ℤ) := by
    rw [Int.floor_lt]
    push_cast
    calc moveRoll * ((usableMoves opponent).length : ℚ)
        < 1 * ((usableMoves opponent).length : ℚ) := mul_lt_mul_of_pos_right hr1 hlenq
      _ = ((usableMoves opponent).length : ℚ) := one_mul _
  have hidx : ⌊moveRoll * (usableMoves opponent).length⌋.toNat <
      (usableMoves opponent).length := by
    omega
  refine ⟨h0, h1, (usableMoves opponent).get ⟨_, hidx⟩, ?_, List.get_mem _ _ _⟩
  unfold randomMove
  simp only [gt_iff_lt, hlen, if_true, not_lt.2 h0, if_false]
  exact List.get?_eq_get hidx

/-- C21: for every opponent moveset with at least one move of non-null power and every
draw `r` in `[0, 1)`, the index `floor(r * n)` lies within the `n` usable moves and the
move that `handleOpponentAttack` passes to `performAttack` is an element of the moveset
whose power is non-null. -/
theorem C21_selected_move_is_usable (c s : BattleState) (opponent player : Pokemon)
    (data : TypeEffectivenessData) (moveRoll accRoll dmgRoll : ℚ)
    (ho : c.opponentPokemon = some opponent) (hp : c.playerPokemon = some player)
    (hc : c.battleOver = false)
    (hmoves : ∃ m ∈ opponent.moves, m.power ≠ none)
    (hr0 : 0 ≤ moveRoll) (hr1 : moveRoll < 1) :
    0 ≤ ⌊moveRoll * (usableMoves opponent).length⌋ ∧
    ⌊moveRoll * (usableMoves opponent).length⌋ < (usableMoves opponent).length ∧
    ∃ move, move ∈ opponent.moves ∧ move.power ≠ none ∧
      handleOpponentAttack c data moveRoll accRoll dmgRoll s =
        { state := (performAttack opponent player Setter.setPlayerPokemon move true data
            accRoll dmgRoll s),
          timeoutScheduled := true } := by
  obtain ⟨h0, h1, move, hmove, hmem⟩ := randomMove_of_usable opponent moveRoll hmoves hr0 hr1
  have hm := (mem_usableMoves opponent move).1 hmem
  refine ⟨h0, h1, move, hm.1, hm.2, ?_⟩
  simp [handleOpponentAttack, ho, hp, hc, hmove]

/-- Witness for C21: the opponent `weakOpponent` (moveset `[tackle]`) at the draw 1/2. -/
theorem C21_selected_move_is_usable_witness :
    0 ≤ ⌊(1 / 2 : ℚ) * (usableMoves weakOpponent).length⌋ ∧
    ⌊(1 / 2 : ℚ) * (usableMoves weakOpponent).length⌋ < (usableMoves weakOpponent).length ∧
    ∃ move, move ∈ weakOpponent.moves ∧ move.power ≠ none ∧
      handleOpponentAttack finishingState ghostTable (1 / 2) (1 / 2) (1 / 2) finishingState =
        { state := (performAttack weakOpponent gengar Setter.setPlayerPokemon move true
            ghostTable (1 / 2) (1 / 2) finishingState),
          timeoutScheduled := true } :=
  C21_selected_move_is_usable finishingState finishingState weakOpponent gengar ghostTable
    (1 / 2) (1 / 2) (1 / 2) rfl rfl rfl
    ⟨tackle, by simp [weakOpponent], by simp [tackle]⟩ (by norm_num) (by norm_num)

/-- C22: if every move of the opponent has null power (or the moveset is empty),
`handleOpponentAttack` appends exactly the informational entry, sets `isPlayerTurn` to
true, leaves both combatant cells and `battleOver` as they were and schedules no timer. -/
theorem C22_no_usable_move_passes_turn (c s : BattleState) (opponent player : Pokemon)
    (data : TypeEffectivenessData) (moveRoll accRoll dmgRoll : ℚ)
    (ho : c.opponentPokemon = some opponent) (hp : c.playerPokemon = some player)
    (hc : c.battleOver = false)
    (hmoves : ∀ m ∈ opponent.moves, m.power = none) :
    handleOpponentAttack c data moveRoll accRoll dmgRoll s =
      { state := { playerPokemon := s.playerPokemon, opponentPokemon := s.opponentPokemon,
                   battleLog := s.battleLog ++ [noUsableMoveLogEntry opponent],
                   isPlayerTurn := true, battleOver := s.battleOver },
        timeoutScheduled := false } ∧
    (noUsableMoveLogEntry opponent).type = LogType.info := by
  have husable : usableMoves opponent = [] := by
    unfold usableMoves
    rw [List.filter_eq_nil_iff]
    intro m hm
    simp [hmoves m hm]
  have hnone : randomMove opponent moveRoll = none := by
    simp [randomMove, husable]
  refine ⟨?_, rfl⟩
  simp [handleOpponentAttack, ho, hp, hc, hnone, BattleState.appendLog]

/-- Witness for C22: snorlax, whose only move is the status move `growl`, is to act. -/
theorem C22_no_usable_move_passes_turn_witness :
    handleOpponentAttack statusOnlyState ghostTable (1 / 2) (1 / 2) (1 / 2) statusOnlyState =
      { state := { playerPokemon := statusOnlyState.playerPokemon,
                   opponentPokemon := statusOnlyState.opponentPokemon,
                   battleLog := statusOnlyState.battleLog ++ [noUsableMoveLogEntry snorlax],
                   isPlayerTurn := true, battleOver := statusOnlyState.battleOver },
        timeoutScheduled := false } ∧
    (noUsableMoveLogEntry snorlax).type = LogType.info :=
  C22_no_usable_move_passes_turn statusOnlyState statusOnlyState snorlax gengar ghostTable
    (1 / 2) (1 / 2) (1 / 2) rfl rfl rfl (by simp [snorlax, growl])

/-! ## Session construction -/

/-- Catalog data with an `hp` entry gives a snapshot at level 50 and full health. -/
theorem battleSnapshot_of_hp (pokemon : CatalogPokemon) (moves : List Move)
    (hhp : catalogHp pokemon ≠ none) :
    ∃ snapshot, battleSnapshot pokemon moves = some snapshot ∧
      SpecFullHealth (some snapshot) := by
  unfold catalogHp at hhp
  unfold battleSnapshot
  cases hfind : pokemon.stats.find? (fun s => s.stat.name == "hp") with
  | none => simp [hfind] at hhp
  | some entry =>
    refine ⟨_, rfl, ?_⟩
    simp [SpecFullHealth, hpBaseStat, hfind]

/-- The opponent part with a successful fetch of catalog data that has an `hp` entry. -/
theorem loadOpponent_of_success (getPokemonByName : String → Option CatalogPokemon)
    (getMoveDetail : String → Option Move) (shuffle : List MoveInfo → List MoveInfo)
    (nameRoll : ℚ) (s : ArenaState) (name : String) (opponentData : CatalogPokemon)
    (hname : randomOpponentName nameRoll = some name)
    (hfetch : getPokemonByName name = some opponentData)
    (hhp : catalogHp opponentData ≠ none) :
    ∃ snapshot, SpecFullHealth (some snapshot) ∧
      loadOpponent getPokemonByName getMoveDetail shuffle nameRoll s =
        { s with opponentPokemon := some snapshot, loadingBattle := false } := by
  obtain ⟨snapshot, hsnap, hfull⟩ := battleSnapshot_of_hp opponentData
    (hydrateMoves getMoveDetail (shuffle (opponentData.moves.filter learnedByLevelUp))) hhp
  refine ⟨snapshot, hfull, ?_⟩
  simp [loadOpponent, hname, hfetch, hsnap]

/-- C23: the initial load `fetchBattlePokemons` (for a non-empty team) and the rematch
`resetBattle` (with the selected Pokemon present in the team), when the opponent fetch
succeeds and the catalog data have an `hp` entry, yield an empty battle log,
`battleOver = false`, `isPlayerTurn = true` and player and opponent snapshots with level 50
and `currentHp` equal to their own `hp` base stat, whatever the previous state `s` was. -/
theorem C23_session_construction (playerTeam : List CatalogPokemon)
    (selectedPlayerPokemonId : Option ℕ) (getPokemonByName : String → Option CatalogPokemon)
    (getMoveDetail : String → Option Move) (shuffle : List MoveInfo → List MoveInfo)
    (nameRoll : ℚ) (s : ArenaState) (first selected opponentData : CatalogPokemon)
    (name : String)
    (hfirst : playerTeam.head? = some first)
    (hselected : findInTeam playerTeam selectedPlayerPokemonId = some selected)
    (hname : randomOpponentName nameRoll = some name)
    (hfetch : getPokemonByName name = some opponentData)
    (hhpFirst : catalogHp first ≠ none) (hhpSelected : catalogHp selected ≠ none)
    (hhpOpponent : catalogHp opponentData ≠ none) :
    SpecFreshSession
      (fetchBattlePokemons playerTeam getPokemonByName getMoveDetail shuffle nameRoll s) ∧
    SpecFreshSession
      (resetBattle playerTeam selectedPlayerPokemonId getPokemonByName getMoveDetail shuffle
        nameRoll s) := by
  constructor
  · obtain ⟨snapshot, hsnap, hfull⟩ := battleSnapshot_of_hp first
      (hydrateMoves getMoveDetail first.moves) hhpFirst
    cases playerTeam with
    | nil => simp at hfirst
    | cons head rest =>
      have hhead : head = first := by simpa using hfirst
      subst hhead
      obtain ⟨opp, hoppFull, hload⟩ := loadOpponent_of_success getPokemonByName getMoveDetail
        shuffle nameRoll
        { clearSession s with playerPokemon := some snapshot,
                              selectedPlayerPokemonId := some head.id }
        name opponentData hname hfetch hhpOpponent
      simp only [fetchBattlePokemons, hsnap, hload]
      exact ⟨rfl, rfl, rfl, hfull, hoppFull⟩
  · obtain ⟨snapshot, hsnap, hfull⟩ := battleSnapshot_of_hp selected
      (hydrateMoves getMoveDetail selected.moves) hhpSelected
    have hlen : playerTeam.length > 0 := by
      cases playerTeam with
      | nil => simp at hfirst
      | cons head rest => simp
    obtain ⟨opp, hoppFull, hload⟩ := loadOpponent_of_success getPokemonByName getMoveDetail
      shuffle nameRoll { clearSession s with playerPokemon := some snapshot }
      name opponentData hname hfetch hhpOpponent
    simp only [resetBattle, hlen, if_true, hselected, hsnap, hload]
    exact ⟨rfl, rfl, rfl, hfull, hoppFull⟩

theorem randomOpponentName_snorlax : randomOpponentName (9 / 20) = some "snorlax" := by
  have hfloor : ⌊(9 / 20 : ℚ) * ((opponentNames.length : ℕ) : ℚ)⌋ = 4 := by
    rw [Int.floor_eq_iff]
    simp [opponentNames]
    norm_num
  unfold randomOpponentName
  simp only [hfloor]
  rfl

/-- Witness for C23: a team holding gengar, the draw that selects snorlax, and the state
left by a finished session. -/
theorem C23_session_construction_witness :
    SpecFreshSession
      (fetchBattlePokemons [catalogGengar] sampleCatalog sampleMoveDetail id (9 / 20)
        finishedArena) ∧
    SpecFreshSession
      (resetBattle [catalogGengar] (some 94) sampleCatalog sampleMoveDetail id (9 / 20)
        finishedArena) :=
  C23_session_construction [catalogGengar] (some 94) sampleCatalog sampleMoveDetail id
    (9 / 20) finishedArena catalogGengar catalogGengar catalogSnorlax "snorlax" rfl
    (by simp [findInTeam, catalogGengar]) randomOpponentName_snorlax
    (by simp [sampleCatalog])
    (by simp [catalogHp, catalogGengar]) (by simp [catalogHp, catalogGengar])
    (by simp [catalogHp, catalogSnorlax])

/-! ## Substitution and the battle log -/

/-- The state after `handlePlayerPokemonChange` for the id of a team member. -/
theorem handlePlayerPokemonChange_of_member (playerTeam : List CatalogPokemon)
    (selectedId : ℕ) (getMoveDetail : String → Option Move) (s : ArenaState)
    (member : CatalogPokemon)
    (hmember : findInTeam playerTeam (some selectedId) = some member) :
    (handlePlayerPokemonChange playerTeam selectedId getMoveDetail s).isPlayerTurn = true ∧
    (handlePlayerPokemonChange playerTeam selectedId getMoveDetail s).battleOver = false ∧
    (handlePlayerPokemonChange playerTeam selectedId getMoveDetail s).opponentPokemon =
      s.opponentPokemon ∧
    (handlePlayerPokemonChange playerTeam selectedId getMoveDetail s).battleLog = [] := by
  unfold handlePlayerPokemonChange
  simp only [hmember]
  cases battleSnapshot member (hydrateMoves getMoveDetail member.moves) <;>
    exact ⟨rfl, rfl, rfl, rfl⟩

/-- C24: `handlePlayerPokemonChange` invoked in the state `AwaitingPlayerAction`
(`isPlayerTurn = true`, `battleOver = false`) with the id of a team member leaves
`isPlayerTurn`, `battleOver` and the opponent snapshot as they were, and logs no action:
the log it leaves is empty. -/
theorem C24_substitution_keeps_turn (playerTeam : List CatalogPokemon) (selectedId : ℕ)
    (getMoveDetail : String → Option Move) (s : ArenaState) (member : CatalogPokemon)
    (hmember : findInTeam playerTeam (some selectedId) = some member)
    (hturn : s.isPlayerTurn = true) (hover : s.battleOver = false) :
    (handlePlayerPokemonChange playerTeam selectedId getMoveDetail s).isPlayerTurn =
      s.isPlayerTurn ∧
    (handlePlayerPokemonChange playerTeam selectedId getMoveDetail s).battleOver =
      s.battleOver ∧
    (handlePlayerPokemonChange playerTeam selectedId getMoveDetail s).opponentPokemon =
      s.opponentPokemon ∧
    (handlePlayerPokemonChange playerTeam selectedId getMoveDetail s).battleLog = [] := by
  have h := handlePlayerPokemonChange_of_member playerTeam selectedId getMoveDetail s member
    hmember
  rw [hturn, hover]
  exact h

/-- Witness for C24: the player re-selects gengar (id 94) while awaiting their action. -/
theorem C24_substitution_keeps_turn_witness :
    (handlePlayerPokemonChange [catalogGengar] 94 sampleMoveDetail runningArena).isPlayerTurn =
      runningArena.isPlayerTurn ∧
    (handlePlayerPokemonChange [catalogGengar] 94 sampleMoveDetail runningArena).battleOver =
      runningArena.battleOver ∧
    (handlePlayerPokemonChange [catalogGengar] 94 sampleMoveDetail
      runningArena).opponentPokemon = runningArena.opponentPokemon ∧
    (handlePlayerPokemonChange [catalogGengar] 94 sampleMoveDetail runningArena).battleLog =
      [] :=
  C24_substitution_keeps_turn [catalogGengar] 94 sampleMoveDetail runningArena catalogGengar
    (by simp [findInTeam, catalogGengar]) rfl rfl

theorem performAttack_log_extends (attacker defender : Pokemon) (setDefender : Setter)
    (move : Move) (isOpponent : Bool) (data : TypeEffectivenessData) (accRoll dmgRoll : ℚ)
    (s : BattleState) :
    s.battleLog <+:
      (performAttack attacker defender setDefender move isOpponent data accRoll dmgRoll
        s).battleLog := by
  unfold performAttack
  simp only
  split_ifs
  · show s.battleLog <+: ((s.appendLog _).writeHp setDefender _).battleLog ++ [_]
    rw [writeHp_battleLog]
    simp [BattleState.appendLog]
  · rw [writeHp_battleLog]
    simp [BattleState.appendLog]

theorem handleOpponentAttack_log_extends (c s : BattleState) (data : TypeEffectivenessData)
    (moveRoll accRoll dmgRoll : ℚ) :
    s.battleLog <+: (handleOpponentAttack c data moveRoll accRoll dmgRoll s).state.battleLog := by
  unfold handleOpponentAttack
  split
  · split_ifs
    · exact List.prefix_refl _
    · split
      · simp [BattleState.appendLog]
      · exact performAttack_log_extends _ _ _ _ _ _ _ _ _
  · exact List.prefix_refl _

theorem handlePlayerAttack_log_extends (c s : BattleState) (move : Move)
    (data : TypeEffectivenessData) (accRoll dmgRoll : ℚ) :
    s.battleLog <+: (handlePlayerAttack c move data accRoll dmgRoll s).state.battleLog := by
  unfold handlePlayerAttack
  split
  · split_ifs
    · exact List.prefix_refl _
    · exact performAttack_log_extends _ _ _ _ _ _ _ _ _
  · exact List.prefix_refl _

theorem handlePlayerAttackTimeout_log_extends (c s : BattleState)
    (data : TypeEffectivenessData) (moveRoll accRoll dmgRoll : ℚ) :
    s.battleLog <+:
      (handlePlayerAttackTimeout c data moveRoll accRoll dmgRoll s).state.battleLog := by
  unfold handlePlayerAttackTimeout
  split_ifs
  · exact handleOpponentAttack_log_extends c { s with isPlayerTurn := false } data moveRoll
      accRoll dmgRoll
  · exact List.prefix_refl _

theorem handleOpponentAttackTimeout_log (c s : BattleState) :
    (handleOpponentAttackTimeout c s).battleLog = s.battleLog := by
  unfold handleOpponentAttackTimeout
  split_ifs <;> rfl

/-- C25 (counterexample): a substitution during a running session whose log holds one
entry leaves an empty log, of which the former log is no prefix. -/
theorem C25_substitution_clears_log :
    runningArena.battleLog ≠ [] ∧
    (handlePlayerPokemonChange [catalogGengar] 94 sampleMoveDetail runningArena).battleLog =
      [] ∧
    ¬ (runningArena.battleLog <+:
      (handlePlayerPokemonChange [catalogGengar] 94 sampleMoveDetail
        runningArena).battleLog) := by
  have hlog := (handlePlayerPokemonChange_of_member [catalogGengar] 94 sampleMoveDetail
    runningArena catalogGengar (by simp [findInTeam, catalogGengar])).2.2.2
  have hne : runningArena.battleLog ≠ [] := by
    simp [runningArena, afterOpeningState]
  refine ⟨hne, hlog, ?_⟩
  rw [hlog]
  intro hprefix
  exact hne (List.prefix_nil.1 hprefix)

/-- C25 (amended): for `performAttack`, `handlePlayerAttack` and `handleOpponentAttack`
(and the timer callbacks of the two handlers) the log before the operation is a prefix of
the log after it; the substitution `handlePlayerPokemonChange` with the id of a team
member empties the log, as a session reset does. -/
theorem C25_log_append_only_for_attacks (attacker defender : Pokemon) (setDefender : Setter)
    (move : Move) (isOpponent : Bool) (data : TypeEffectivenessData)
    (moveRoll accRoll dmgRoll : ℚ) (c s : BattleState)
    (playerTeam : List CatalogPokemon) (selectedId : ℕ)
    (getMoveDetail : String → Option Move) (arena : ArenaState) (member : CatalogPokemon)
    (hmember : findInTeam playerTeam (some selectedId) = some member) :
    s.battleLog <+:
      (performAttack attacker defender setDefender move isOpponent data accRoll dmgRoll
        s).battleLog ∧
    s.battleLog <+: (handlePlayerAttack c move data accRoll dmgRoll s).state.battleLog ∧
    s.battleLog <+:
      (handlePlayerAttackTimeout c data moveRoll accRoll dmgRoll s).state.battleLog ∧
    s.battleLog <+:
      (handleOpponentAttack c data moveRoll accRoll dmgRoll s).state.battleLog ∧
    s.battleLog <+: (handleOpponentAttackTimeout c s).battleLog ∧
    (handlePlayerPokemonChange playerTeam selectedId getMoveDetail arena).battleLog = [] := by
  refine ⟨performAttack_log_extends _ _ _ _ _ _ _ _ _, handlePlayerAttack_log_extends _ _ _ _ _ _,
    handlePlayerAttackTimeout_log_extends _ _ _ _ _ _,
    handleOpponentAttack_log_extends _ _ _ _ _ _, ?_,
    (handlePlayerPokemonChange_of_member playerTeam selectedId getMoveDetail arena member
      hmember).2.2.2⟩
  rw [handleOpponentAttackTimeout_log]

/-- Witness for C25 (amended): the operations on the state after the player's first
attack, and a substitution in the running session. -/
theorem C25_log_append_only_for_attacks_witness :
    afterOpeningState.battleLog <+:
      (performAttack gengar weakOpponent Setter.setOpponentPokemon shadowPunch false
        ghostTable (1 / 2) (1 / 2) afterOpeningState).battleLog ∧
    afterOpeningState.battleLog <+:
      (handlePlayerAttack afterOpeningState shadowPunch ghostTable (1 / 2) (1 / 2)
        afterOpeningState).state.battleLog ∧
    afterOpeningState.battleLog <+:
      (handlePlayerAttackTimeout afterOpeningState ghostTable (1 / 2) (1 / 2) (1 / 2)
        afterOpeningState).state.battleLog ∧
    afterOpeningState.battleLog <+:
      (handleOpponentAttack afterOpeningState ghostTable (1 / 2) (1 / 2) (1 / 2)
        afterOpeningState).state.battleLog ∧
    afterOpeningState.battleLog <+:
      (handleOpponentAttackTimeout afterOpeningState afterOpeningState).battleLog ∧
    (handlePlayerPokemonChange [catalogGengar] 94 sampleMoveDetail runningArena).battleLog =
      [] :=
  C25_log_append_only_for_attacks gengar weakOpponent Setter.setOpponentPokemon shadowPunch
    false ghostTable (1 / 2) (1 / 2) (1 / 2) afterOpeningState afterOpeningState
    [catalogGengar] 94 sampleMoveDetail runningArena catalogGengar
    (by simp [findInTeam, catalogGengar])

/-- C26: for every list of move references and every outcome of the lookups, the hydrated
moveset is the sequence of successful lookups among the first 4 references in their
original order: it has at most 4 moves, and the move found for any of the first 4
references is in it whatever the other lookups returned. -/
theorem C26_hydration_keeps_successful_lookups (getMoveDetail : String → Option Move)
    (moves : List MoveInfo) (i : ℕ) (moveInfo : MoveInfo) (move : Move) :
    hydrateMoves getMoveDetail moves = specHydrated getMoveDetail moves ∧
    (hydrateMoves getMoveDetail moves).length ≤ 4 ∧
    (i < 4 → moves[i]? = some moveInfo → getMoveDetail moveInfo.move.url = some move →
      move ∈ hydrateMoves getMoveDetail moves) := by
  have heq : hydrateMoves getMoveDetail moves = specHydrated getMoveDetail moves := by
    unfold hydrateMoves specHydrated
    rw [List.filterMap_map]
    rfl
  refine ⟨heq, ?_, ?_⟩
  · rw [heq]
    unfold specHydrated
    calc ((moves.take 4).filterMap _).length ≤ (moves.take 4).length :=
          List.length_filterMap_le _ _
      _ ≤ 4 := by simp [List.length_take]
  · intro hi hget hlookup
    rw [heq]
    unfold specHydrated
    rw [List.mem_filterMap]
    refine ⟨moveInfo, ?_, hlookup⟩
    have htake : (moves.take 4)[i]? = some moveInfo := by
      rw [List.getElem?_take_of_lt hi]
      exact hget
    exact List.getElem?_mem htake

/-- Witness for C26: of gengar's five references the first four are looked up, the second
lookup fails, and the three moves found are kept in order. -/
theorem C26_hydration_keeps_successful_lookups_witness :
    hydrateMoves sampleMoveDetail catalogGengar.moves = [shadowPunch, lick, growl] ∧
    lick ∈ hydrateMoves sampleMoveDetail catalogGengar.moves :=
  ⟨by simp [hydrateMoves, catalogGengar, moveInfoOf, sampleMoveDetail],
    (C26_hydration_keeps_successful_lookups sampleMoveDetail catalogGengar.moves 2
      (moveInfoOf "lick") lick).2.2 (by norm_num) rfl
      (by simp [moveInfoOf, sampleMoveDetail])⟩

/-! ## Team roster -/

/-- The roster invariant: at most `MAX_TEAM_SIZE` members with pairwise different ids. -/
theorem applyTeamAction_invariant (team : List CatalogPokemon) (action : TeamAction)
    (hlen : team.length ≤ MAX_TEAM_SIZE) (hnodup : (team.map (fun p => p.id)).Nodup) :
    (applyTeamAction team action).length ≤ MAX_TEAM_SIZE ∧
    ((applyTeamAction team action).map (fun p => p.id)).Nodup := by
  cases action with
  | select pokemon =>
    simp only [applyTeamAction, handleSelectPokemon]
    split_ifs with h1 h2
    · constructor
      · simp only [List.length_append, List.length_singleton]
        omega
      · rw [List.map_append, List.nodup_append]
        refine ⟨hnodup, by simp, ?_⟩
        intro a ha hb
        simp only [List.map_cons, List.map_nil, List.mem_singleton] at hb
        subst hb
        rw [List.mem_map] at ha
        obtain ⟨q, hq, hqid⟩ := ha
        have hany : team.any (fun p => p.id == pokemon.id) = true := by
          rw [List.any_eq_true]
          exact ⟨q, hq, by simp [hqid]⟩
        simp [hany] at h2
    · exact ⟨hlen, hnodup⟩
    · exact ⟨hlen, hnodup⟩
  | remove pokemonId =>
    simp only [applyTeamAction, handleRemovePokemon]
    constructor
    · exact le_trans (List.length_filter_le _ _) hlen
    · exact hnodup.sublist ((List.filter_sublist team).map _)

theorem foldl_applyTeamAction_invariant (actions : List TeamAction) (team : List CatalogPokemon)
    (hlen : team.length ≤ MAX_TEAM_SIZE) (hnodup : (team.map (fun p => p.id)).Nodup) :
    (actions.foldl applyTeamAction team).length ≤ MAX_TEAM_SIZE ∧
    ((actions.foldl applyTeamAction team).map (fun p => p.id)).Nodup := by
  induction actions generalizing team with
  | nil => exact ⟨hlen, hnodup⟩
  | cons action rest ih =>
    have h := applyTeamAction_invariant team action hlen hnodup
    exact ih (applyTeamAction team action) h.1 h.2

/-- C27: starting from the empty team, after any sequence of `handleSelectPokemon` and
`handleRemovePokemon` calls the team has at most 6 members and no two members share an
id; `handleSelectPokemon` on a full team or with an id already in the team leaves the team
unchanged, and otherwise appends the Pokemon at the end. -/
theorem C27_roster_invariant (actions : List TeamAction) (team : List CatalogPokemon)
    (pokemon : CatalogPokemon) :
    (runTeamActions actions).length ≤ 6 ∧
    ((runTeamActions actions).map (fun p => p.id)).Nodup ∧
    (6 ≤ team.length ∨ pokemon.id ∈ team.map (fun p => p.id) →
      handleSelectPokemon team pokemon team = team) ∧
    (team.length < 6 → pokemon.id ∉ team.map (fun p => p.id) →
      handleSelectPokemon team pokemon team = team ++ [pokemon]) := by
  have hinv := foldl_applyTeamAction_invariant actions [] (by simp) (by simp)
  refine ⟨hinv.1, hinv.2, ?_, ?_⟩
  · intro h
    unfold handleSelectPokemon MAX_TEAM_SIZE
    rcases h with hfull | hmem
    · rw [if_neg (by omega)]
    · rw [List.mem_map] at hmem
      obtain ⟨q, hq, hqid⟩ := hmem
      have hany : team.any (fun p => p.id == pokemon.id) = true := by
        rw [List.any_eq_true]
        exact ⟨q, hq, by simp [hqid]⟩
      split_ifs with h1 h2
      · simp [hany] at h2
      · rfl
      · rfl
  · intro hlen hnot
    unfold handleSelectPokemon MAX_TEAM_SIZE
    have hany : team.any (fun p => p.id == pokemon.id) = false := by
      rw [← Bool.not_eq_true, List.any_eq_true]
      rintro ⟨q, hq, hqid⟩
      exact hnot (List.mem_map.2 ⟨q, hq, by simpa using hqid⟩)
    simp [hlen, hany]

/-- Witness for C27: selecting gengar twice and then snorlax gives the team gengar,
snorlax; selecting gengar again leaves it unchanged and removing id 94 leaves snorlax. -/
theorem C27_roster_invariant_witness :
    runTeamActions [TeamAction.select catalogGengar, TeamAction.select catalogGengar,
      TeamAction.select catalogSnorlax] = [catalogGengar, catalogSnorlax] ∧
    handleSelectPokemon [catalogGengar, catalogSnorlax] catalogGengar
      [catalogGengar, catalogSnorlax] = [catalogGengar, catalogSnorlax] ∧
    handleRemovePokemon 94 [catalogGengar, catalogSnorlax] = [catalogSnorlax] :=
  ⟨by decide,
    (C27_roster_invariant [] [catalogGengar, catalogSnorlax] catalogGengar).2.2.1
      (Or.inr (by simp)),
    by decide⟩

/-- C28: `getWinnerMessage`, with both combatants present, returns the empty string when
`battleOver` is false; when `battleOver` is true it reports the loss whenever the
player's `currentHp` is at most 0 (whatever the opponent's is), the win when the
player's `currentHp` is positive and the opponent's is at most 0, and the empty string
when both are positive. -/
theorem C28_winner_message (s : BattleState) (player opponent : Pokemon)
    (hp : s.playerPokemon = some player) (ho : s.opponentPokemon = some opponent) :
    (s.battleOver = false → getWinnerMessage s = some "") ∧
    (s.battleOver = true → player.currentHp ≤ 0 →
      getWinnerMessage s = some ("You lost! " ++ capitalized opponent.name ++ " wins!")) ∧
    (s.battleOver = true → 0 < player.currentHp → opponent.currentHp ≤ 0 →
      getWinnerMessage s =
        some ("Congratulations! Your " ++ capitalized player.name ++ " wins!")) ∧
    (s.battleOver = true → 0 < player.currentHp → 0 < opponent.currentHp →
      getWinnerMessage s = some "") := by
  unfold getWinnerMessage
  refine ⟨?_, ?_, ?_, ?_⟩
  · intro hover
    simp [hover]
  · intro hover hlost
    simp [hover, hp, ho, hlost]
  · intro hover hpos hwon
    simp [hover, hp, ho, not_le.2 hpos, hwon]
  · intro hover hpos hopp
    simp [hover, hp, ho, not_le.2 hpos, not_le.2 hopp]

/-- Witness for C28: after the double attack the battle is over, gengar has 60 health and
the opponent 0. -/
theorem C28_winner_message_witness :
    getWinnerMessage doubleAttackState = some "Congratulations! Your Gengar wins!" :=
  (C28_winner_message doubleAttackState gengar { weakOpponent with currentHp := 0 } rfl
    rfl).2.2.1 rfl (by simp [gengar]) (by simp)

/-! ## Monotonicity of the damage -/

theorem baseDamage_mono (level power power' attack attack' defense defense' : ℚ)
    (hlevel : 0 ≤ level) (hp : 0 ≤ power) (hpp : power ≤ power')
    (ha : 0 < attack) (haa : attack ≤ attack')
    (hd : 0 < defense') (hdd : defense' ≤ defense) :
    baseDamage level power attack defense ≤ baseDamage level power' attack' defense' := by
  unfold baseDamage
  have hk : (0 : ℚ) ≤ 2 * level / 5 + 2 := by linarith
  have hratio : attack / defense ≤ attack' / defense' :=
    div_le_div₀ (le_of_lt (lt_of_lt_of_le ha haa)) haa hd hdd
  have hratio0 : 0 ≤ attack / defense :=
    div_nonneg (le_of_lt ha) (le_of_lt (lt_of_lt_of_le hd hdd))
  have hprod : (2 * level / 5 + 2) * power * (attack / defense) ≤
      (2 * level / 5 + 2) * power' * (attack' / defense') :=
    mul_le_mul (mul_le_mul_of_nonneg_left hpp hk) hratio hratio0
      (mul_nonneg hk (le_trans hp hpp))
  linarith

theorem effectivenessMultiplier_nonneg (data : TypeEffectivenessData) (move : Move)
    (defender : Pokemon) : 0 ≤ (typeMatchup data move defender).1 := by
  unfold typeMatchup
  split
  · next rel _ =>
    rcases tempMultiplier_zero_or_zpow rel (defenderTypes defender) with h | ⟨k, hk⟩
    · simp [h]
    · simp only [hk]
      exact le_of_lt (zpow_pos (by norm_num) k)
  · norm_num

theorem typeMatchup_congr (data : TypeEffectivenessData) (move move' : Move)
    (defender defender' : Pokemon) (htype : move'.type = move.type)
    (htypes : defender'.types = defender.types) :
    typeMatchup data move' defender' = typeMatchup data move defender := by
  unfold typeMatchup defenderTypes
  rw [htype, htypes]

/-- On a hit, a larger base value gives at least the same damage. -/
theorem hit_damage_mono (attacker attacker' defender defender' : Pokemon) (move move' : Move)
    (data : TypeEffectivenessData) (accRoll dmgRoll power power' : ℚ)
    (hpow : move.power = some power) (hpow' : move'.power = some power')
    (hhit : accuracyCheckFails move accRoll = false)
    (hhit' : accuracyCheckFails move' accRoll = false)
    (htype : move'.type = move.type) (htypes : defender'.types = defender.types)
    (hroll : 0 ≤ dmgRoll)
    (hbase : baseDamage attacker.level power (baseStatOr1 attacker.stats "attack")
        (baseStatOr1 defender.stats "defense") ≤
      baseDamage attacker'.level power' (baseStatOr1 attacker'.stats "attack")
        (baseStatOr1 defender'.stats "defense")) :
    (calculateDamage attacker defender (some move) data accRoll dmgRoll).damage ≤
      (calculateDamage attacker' defender' (some move') data accRoll dmgRoll).damage := by
  rw [calculateDamage_of_hit attacker defender move data accRoll dmgRoll power hpow hhit,
    calculateDamage_of_hit attacker' defender' move' data accRoll dmgRoll power' hpow' hhit',
    typeMatchup_congr data move move' defender defender' htype htypes]
  have hm := effectivenessMultiplier_nonneg data move defender
  have hf : 0 ≤ rollFactor dmgRoll := by
    unfold rollFactor
    norm_num
    linarith
  exact max_le_max le_rfl (Int.floor_mono
    (mul_le_mul_of_nonneg_right (mul_le_mul_of_nonneg_right hbase hm) hf))

/-- C29: for fixed defender types, move type, type table and random draws on which the
move hits, with positive attack and defense stats, the damage returned by
`calculateDamage` is non-decreasing in the move's power, non-decreasing in the attacker's
attack stat and non-increasing in the defender's defense stat. The inputs range over the
battle's domain: attackers at level 50 (the level of every snapshot, lines 154 and 175), a
power that is not negative and a damage draw that is not negative (`Math.random()`). -/
theorem C29_damage_monotone (attacker attacker' defender defender' : Pokemon)
    (move move' : Move) (data : TypeEffectivenessData) (accRoll dmgRoll power power' : ℚ)
    (hlevel : attacker.level = 50) (hlevel' : attacker'.level = 50)
    (hpow : move.power = some power) (hpow' : move'.power = some power')
    (hp : 0 ≤ power) (hpp : power ≤ power')
    (hatk : 0 < baseStatOr1 attacker.stats "attack")
    (hatk' : baseStatOr1 attacker.stats "attack" ≤ baseStatOr1 attacker'.stats "attack")
    (hdef' : 0 < baseStatOr1 defender'.stats "defense")
    (hdef : baseStatOr1 defender'.stats "defense" ≤ baseStatOr1 defender.stats "defense")
    (htype : move'.type = move.type) (htypes : defender'.types = defender.types)
    (hhit : accuracyCheckFails move accRoll = false)
    (hhit' : accuracyCheckFails move' accRoll = false)
    (hroll : 0 ≤ dmgRoll) :
    (calculateDamage attacker defender (some move) data accRoll dmgRoll).damage ≤
      (calculateDamage attacker defender (some move') data accRoll dmgRoll).damage ∧
    (calculateDamage attacker defender (some move) data accRoll dmgRoll).damage ≤
      (calculateDamage attacker' defender (some move) data accRoll dmgRoll).damage ∧
    (calculateDamage attacker defender (some move) data accRoll dmgRoll).damage ≤
      (calculateDamage attacker defender' (some move) data accRoll dmgRoll).damage := by
  have hdpos : 0 < baseStatOr1 defender.stats "defense" := lt_of_lt_of_le hdef' hdef
  have hlevel0 : (0 : ℚ) ≤ attacker.level := by rw [hlevel]; norm_num
  refine ⟨?_, ?_, ?_⟩
  · exact hit_damage_mono attacker attacker defender defender move move' data accRoll dmgRoll
      power power' hpow hpow' hhit hhit' htype rfl hroll
      (baseDamage_mono _ _ _ _ _ _ _ hlevel0 hp hpp hatk le_rfl hdpos le_rfl)
  · refine hit_damage_mono attacker attacker' defender defender move move data accRoll dmgRoll
      power power hpow hpow hhit hhit rfl rfl hroll ?_
    rw [hlevel', ← hlevel]
    exact baseDamage_mono _ _ _ _ _ _ _ hlevel0 hp le_rfl hatk hatk' hdpos le_rfl
  · exact hit_damage_mono attacker attacker defender defender' move move data accRoll dmgRoll
      power power hpow hpow hhit hhit rfl htypes hroll
      (baseDamage_mono _ _ _ _ _ _ _ hlevel0 hp le_rfl hatk le_rfl hdef' hdef)

/-- Witness for C29: power 60 against 80, attack 100 against 400, defense 100
against 50, for `shadow-punch` on a ghost/psychic defender. -/
theorem C29_damage_monotone_witness :
    (calculateDamage plainGengar ghostPsychic (some shadowPunch) ghostTable (1 / 2)
        (1 / 2)).damage ≤
      (calculateDamage plainGengar ghostPsychic (some heavyShadowPunch) ghostTable (1 / 2)
        (1 / 2)).damage ∧
    (calculateDamage plainGengar ghostPsychic (some shadowPunch) ghostTable (1 / 2)
        (1 / 2)).damage ≤
      (calculateDamage strongGengar ghostPsychic (some shadowPunch) ghostTable (1 / 2)
        (1 / 2)).damage ∧
    (calculateDamage plainGengar ghostPsychic (some shadowPunch) ghostTable (1 / 2)
        (1 / 2)).damage ≤
      (calculateDamage plainGengar frailGhostPsychic (some shadowPunch) ghostTable (1 / 2)
        (1 / 2)).damage :=
  C29_damage_monotone plainGengar strongGengar ghostPsychic frailGhostPsychic shadowPunch
    heavyShadowPunch ghostTable (1 / 2) (1 / 2) 60 80
    rfl rfl rfl rfl (by norm_num) (by norm_num)
    (by simp [baseStatOr1, plainGengar])
    (by simp [baseStatOr1, plainGengar, strongGengar]; norm_num)
    (by simp [baseStatOr1, frailGhostPsychic])
    (by simp [baseStatOr1, frailGhostPsychic, ghostPsychic]; norm_num)
    rfl rfl (accuracyCheckFails_of_none _ _ rfl) (accuracyCheckFails_of_none _ _ rfl)
    (by norm_num)

/-! ## Generation filter -/

theorem inGenerationRange_iff (offset limit pokemonId : ℤ) :
    inGenerationRange ⟨offset, limit⟩ pokemonId = true ↔
      offset < pokemonId ∧ pokemonId ≤ offset + limit := by
  simp [inGenerationRange]

/-- C30: the keys for which the filter is applied are `gen1` .. `gen9`, and for every
integer id the number of them whose test `id > offset && id <= offset + limit` accepts the
id is 1 when `1 ≤ id ≤ 1025` and 0 otherwise. -/
theorem C30_generations_partition_ids (pokemonId : ℤ) :
    generationEntries.map (fun entry => entry.1) =
      ["gen1", "gen2", "gen3", "gen4", "gen5", "gen6", "gen7", "gen8", "gen9"] ∧
    (acceptingGenerations pokemonId).length =
      if 1 ≤ pokemonId ∧ pokemonId ≤ 1025 then 1 else 0 := by
  constructor
  · decide
  · have hentries : generationEntries =
        [("gen1", ⟨0, 151⟩), ("gen2", ⟨151, 100⟩), ("gen3", ⟨251, 135⟩),
          ("gen4", ⟨386, 107⟩), ("gen5", ⟨493, 156⟩), ("gen6", ⟨649, 72⟩),
          ("gen7", ⟨721, 88⟩), ("gen8", ⟨809, 96⟩), ("gen9", ⟨905, 120⟩)] := by decide
    unfold acceptingGenerations
    rw [hentries]
    simp only [List.length_map, List.filter_cons, List.filter_nil, inGenerationRange_iff]
    have hcases : pokemonId ≤ 0 ∨ (0 < pokemonId ∧ pokemonId ≤ 151) ∨
        (151 < pokemonId ∧ pokemonId ≤ 251) ∨ (251 < pokemonId ∧ pokemonId ≤ 386) ∨
        (386 < pokemonId ∧ pokemonId ≤ 493) ∨ (493 < pokemonId ∧ pokemonId ≤ 649) ∨
        (649 < pokemonId ∧ pokemonId ≤ 721) ∨ (721 < pokemonId ∧ pokemonId ≤ 809) ∨
        (809 < pokemonId ∧ pokemonId ≤ 905) ∨ (905 < pokemonId ∧ pokemonId ≤ 1025) ∨
        1025 < pokemonId := by omega
    rcases hcases with h | h | h | h | h | h | h | h | h | h | h <;>
      (repeat (first | rw [if_pos (by omega)] | rw [if_neg (by omega)])) <;> rfl

/-! ## Flows with a pending timer -/

/-- An opponent whose only move is usable selects it at the move draw 1/2. -/
theorem randomMove_single (opponent : Pokemon) (move : Move)
    (hmoves : opponent.moves = [move]) (hpow : move.power.isSome = true) :
    randomMove opponent (1 / 2) = some move := by
  have hfloor : ⌊(2⁻¹ : ℚ)⌋ = 0 := by
    rw [Int.floor_eq_iff]; norm_num
  simp [randomMove, usableMoves, hmoves, hpow, hfloor]

/-- The timer of the player's first attack, created by the render `openingState` and
fired on the live state `doubleAttackState`. -/
theorem handlePlayerAttackTimeout_first :
    handlePlayerAttackTimeout openingState ghostTable (1 / 2) (1 / 2) (1 / 2)
        doubleAttackState =
      { state := firstTimerState, timeoutScheduled := true } := by
  have hstand : bothStanding openingState.opponentPokemon openingState.playerPokemon =
      true := by
    simp [bothStanding, openingState, freshOpponent, ghostPsychic, gengar]
  have hcalc := tackle_on_gengar freshOpponent rfl rfl
  have hhp : newDefenderHp gengar 28 = 32 := by
    simp [newDefenderHp, gengar]; norm_num
  have hpos : 0 < newDefenderHp gengar
      (calculateDamage freshOpponent gengar (some tackle) ghostTable (1 / 2) (1 / 2)).damage := by
    rw [hcalc, hhp]; norm_num
  have hmove : randomMove freshOpponent (1 / 2) = some tackle :=
    randomMove_single freshOpponent tackle rfl rfl
  unfold handlePlayerAttackTimeout
  rw [if_pos hstand]
  have ho : handleOpponentAttack openingState ghostTable (1 / 2) (1 / 2) (1 / 2)
      { doubleAttackState with isPlayerTurn := false } =
      { state := (performAttack freshOpponent gengar Setter.setPlayerPokemon tackle true
          ghostTable (1 / 2) (1 / 2) { doubleAttackState with isPlayerTurn := false }),
        timeoutScheduled := true } := by
    simp only [handleOpponentAttack, openingState, hmove, Bool.false_eq_true, if_false]
  rw [ho, performAttack_of_standing _ _ _ _ _ _ _ _ _ hpos, hcalc, hhp]
  rfl

/-- The timer of the player's second attack, created by the render `afterOpeningState`
and fired on the live state `firstTimerState`. -/
theorem handlePlayerAttackTimeout_second :
    handlePlayerAttackTimeout afterOpeningState ghostTable (1 / 2) (1 / 2) (1 / 2)
        firstTimerState =
      { state := secondTimerState, timeoutScheduled := true } := by
  have hstand : bothStanding afterOpeningState.opponentPokemon
      afterOpeningState.playerPokemon = true := by
    simp [bothStanding, afterOpeningState, openingState, weakOpponent, gengar]
  have hcalc := tackle_on_gengar weakOpponent rfl rfl
  have hhp : newDefenderHp gengar 28 = 32 := by
    simp [newDefenderHp, gengar]; norm_num
  have hpos : 0 < newDefenderHp gengar
      (calculateDamage weakOpponent gengar (some tackle) ghostTable (1 / 2) (1 / 2)).damage := by
    rw [hcalc, hhp]; norm_num
  unfold handlePlayerAttackTimeout
  rw [if_pos hstand]
  have ho : handleOpponentAttack afterOpeningState ghostTable (1 / 2) (1 / 2) (1 / 2)
      { firstTimerState with isPlayerTurn := false } =
      { state := (performAttack weakOpponent gengar Setter.setPlayerPokemon tackle true
          ghostTable (1 / 2) (1 / 2) { firstTimerState with isPlayerTurn := false }),
        timeoutScheduled := true } := by
    simp only [handleOpponentAttack, afterOpeningState, openingState, randomMove_weakOpponent,
      Bool.false_eq_true, if_false]
  rw [ho, performAttack_of_standing _ _ _ _ _ _ _ _ _ hpos, hcalc, hhp]
  rfl

/-- The hit of `tackle` on `slamOpponent` by snorlax (attack 110 against defense 100), at
the accuracy roll 50 and the damage draw 1/2: 19 damage. -/
theorem tackle_by_snorlax :
    calculateDamage snorlaxPlayer slamOpponent (some tackle) ghostTable (1 / 2) (1 / 2) =
      { damage := 19, hit := true, effectiveness := Effectiveness.neutral } := by
  have hacc : accuracyCheckFails tackle (1 / 2) = false := by
    simp [accuracyCheckFails, tackle]; norm_num
  have hm : typeMatchup ghostTable tackle slamOpponent = (1, Effectiveness.neutral) := by
    simp [typeMatchup, ghostTable, tackle]
  rw [calculateDamage_of_hit snorlaxPlayer slamOpponent tackle ghostTable (1 / 2) (1 / 2) 40
    rfl hacc, hm]
  have hval : baseDamage snorlaxPlayer.level 40 (baseStatOr1 snorlaxPlayer.stats "attack")
      (baseStatOr1 slamOpponent.stats "defense") * (1, Effectiveness.neutral).1 *
        rollFactor (1 / 2) = 9879 / 500 := by
    simp [baseDamage, rollFactor, baseStatOr1, snorlaxPlayer, snorlax, slamOpponent,
      ghostPsychic]
    norm_num
  have hfloor : ⌊((9879 : ℚ) / 500)⌋ = 19 := by
    rw [Int.floor_eq_iff]; norm_num
  rw [hval, hfloor]
  simp

/-- The hit of `slam` on snorlax by `slamOpponent` (attack 100 against defense 65), at the
accuracy roll 50 and the damage draw 1/2: 51 damage. -/
theorem slam_on_snorlax :
    calculateDamage slamOpponent snorlaxPlayer (some slam) ghostTable (1 / 2) (1 / 2) =
      { damage := 51, hit := true, effectiveness := Effectiveness.neutral } := by
  have hacc : accuracyCheckFails slam (1 / 2) = false := by
    simp [accuracyCheckFails, slam]; norm_num
  have hm : typeMatchup ghostTable slam snorlaxPlayer = (1, Effectiveness.neutral) := by
    simp [typeMatchup, ghostTable, slam]
  rw [calculateDamage_of_hit slamOpponent snorlaxPlayer slam ghostTable (1 / 2) (1 / 2) 80
    rfl hacc, hm]
  have hval : baseDamage slamOpponent.level 80 (baseStatOr1 slamOpponent.stats "attack")
      (baseStatOr1 snorlaxPlayer.stats "defense") * (1, Effectiveness.neutral).1 *
        rollFactor (1 / 2) = 2701 / 52 := by
    simp [baseDamage, rollFactor, baseStatOr1, snorlaxPlayer, snorlax, slamOpponent,
      ghostPsychic]
    norm_num
  have hfloor : ⌊((2701 : ℚ) / 52)⌋ = 51 := by
    rw [Int.floor_eq_iff]; norm_num
  rw [hval, hfloor]
  simp

/-- The attack of snorlax, resolved by the handler of the render `switchStart`. -/
theorem handlePlayerAttack_switchStart :
    handlePlayerAttack switchStart tackle ghostTable (1 / 2) (1 / 2) switchStart =
      { state := afterSwitchAttack, timeoutScheduled := true } := by
  have hcalc := tackle_by_snorlax
  have hhp : newDefenderHp slamOpponent 19 = 61 := by
    simp [newDefenderHp, slamOpponent, ghostPsychic]; norm_num
  have hpos : 0 < newDefenderHp slamOpponent
      (calculateDamage snorlaxPlayer slamOpponent (some tackle) ghostTable (1 / 2)
        (1 / 2)).damage := by
    rw [hcalc, hhp]; norm_num
  have hp : handlePlayerAttack switchStart tackle ghostTable (1 / 2) (1 / 2) switchStart =
      { state := (performAttack snorlaxPlayer slamOpponent Setter.setOpponentPokemon tackle
          false ghostTable (1 / 2) (1 / 2) switchStart),
        timeoutScheduled := true } := rfl
  rw [hp, performAttack_of_standing _ _ _ _ _ _ _ _ _ hpos, hcalc, hhp]
  rfl

/-- The substitution of gengar for snorlax while the timer of the attack is pending. -/
theorem handlePlayerPokemonChange_switch :
    handlePlayerPokemonChange switchTeam 94 sampleMoveDetail attackedArena =
      substitutedArena := by
  have hfind : findInTeam switchTeam (some 94) = some catalogGengar := by
    simp [findInTeam, switchTeam, catalogSnorlax, catalogGengar]
  have hsnap : battleSnapshot catalogGengar
      (hydrateMoves sampleMoveDetail catalogGengar.moves) = some gengarSubstitute := by
    simp [battleSnapshot, hydrateMoves, catalogGengar, moveInfoOf, sampleMoveDetail,
      gengarSubstitute, gengar]
  simp only [handlePlayerPokemonChange, hfind, hsnap]
  rfl

/-- The timer of snorlax's attack, created by the render `switchStart` and fired on the
live state `substitutedState`: `slam` hits. -/
theorem handlePlayerAttackTimeout_staleHit :
    handlePlayerAttackTimeout switchStart ghostTable (1 / 2) (1 / 2) (1 / 2)
        substitutedState =
      { state := staleHitState, timeoutScheduled := true } := by
  have hstand : bothStanding switchStart.opponentPokemon switchStart.playerPokemon =
      true := by
    simp [bothStanding, switchStart, slamOpponent, ghostPsychic, snorlaxPlayer, snorlax]
  have hcalc := slam_on_snorlax
  have hhp : newDefenderHp snorlaxPlayer 51 = 109 := by
    simp [newDefenderHp, snorlaxPlayer, snorlax]; norm_num
  have hpos : 0 < newDefenderHp snorlaxPlayer
      (calculateDamage slamOpponent snorlaxPlayer (some slam) ghostTable (1 / 2)
        (1 / 2)).damage := by
    rw [hcalc, hhp]; norm_num
  have hmove : randomMove slamOpponent (1 / 2) = some slam :=
    randomMove_single slamOpponent slam rfl rfl
  unfold handlePlayerAttackTimeout
  rw [if_pos hstand]
  have ho : handleOpponentAttack switchStart ghostTable (1 / 2) (1 / 2) (1 / 2)
      { substitutedState with isPlayerTurn := false } =
      { state := (performAttack slamOpponent snorlaxPlayer Setter.setPlayerPokemon slam true
          ghostTable (1 / 2) (1 / 2) { substitutedState with isPlayerTurn := false }),
        timeoutScheduled := true } := by
    simp only [handleOpponentAttack, switchStart, hmove, Bool.false_eq_true, if_false]
  rw [ho, performAttack_of_standing _ _ _ _ _ _ _ _ _ hpos, hcalc, hhp]
  rfl

/-- The opponent's attack resolved on the live state `faintedState` by the handler of the
render `finishingState`. -/
theorem handleOpponentAttack_afterFaint :
    handleOpponentAttack finishingState ghostTable (1 / 2) (1 / 2) (1 / 2) faintedState =
      { state := attackedAfterFaintState, timeoutScheduled := true } := by
  have hcalc := tackle_on_gengar weakOpponent rfl rfl
  have hhp : newDefenderHp gengar 28 = 32 := by
    simp [newDefenderHp, gengar]; norm_num
  have hpos : 0 < newDefenderHp gengar
      (calculateDamage weakOpponent gengar (some tackle) ghostTable (1 / 2) (1 / 2)).damage := by
    rw [hcalc, hhp]; norm_num
  have ho : handleOpponentAttack finishingState ghostTable (1 / 2) (1 / 2) (1 / 2)
      faintedState =
      { state := (performAttack weakOpponent gengar Setter.setPlayerPokemon tackle true
          ghostTable (1 / 2) (1 / 2) faintedState),
        timeoutScheduled := true } := by
    simp only [handleOpponentAttack, finishingState, randomMove_weakOpponent,
      Bool.false_eq_true, if_false]
  rw [ho, performAttack_of_standing _ _ _ _ _ _ _ _ _ hpos, hcalc, hhp]
  rfl

/-- The call of `performAttack` made by the second timer of the double attack. -/
theorem performAttack_secondTimer :
    performAttack weakOpponent gengar Setter.setPlayerPokemon tackle true ghostTable (1 / 2)
        (1 / 2) firstTimerState = secondTimerState := by
  have hcalc := tackle_on_gengar weakOpponent rfl rfl
  have hhp : newDefenderHp gengar 28 = 32 := by
    simp [newDefenderHp, gengar]; norm_num
  have hpos : 0 < newDefenderHp gengar
      (calculateDamage weakOpponent gengar (some tackle) ghostTable (1 / 2) (1 / 2)).damage := by
    rw [hcalc, hhp]; norm_num
  rw [performAttack_of_standing _ _ _ _ _ _ _ _ _ hpos, hcalc, hhp]
  rfl

/-- The call of `performAttack` made by the pending timer after the substitution, when
`slam` hits. -/
theorem performAttack_staleHit :
    performAttack slamOpponent snorlaxPlayer Setter.setPlayerPokemon slam true ghostTable
        (1 / 2) (1 / 2) { substitutedState with isPlayerTurn := false } = staleHitState := by
  have hcalc := slam_on_snorlax
  have hhp : newDefenderHp snorlaxPlayer 51 = 109 := by
    simp [newDefenderHp, snorlaxPlayer, snorlax]; norm_num
  have hpos : 0 < newDefenderHp snorlaxPlayer
      (calculateDamage slamOpponent snorlaxPlayer (some slam) ghostTable (1 / 2)
        (1 / 2)).damage := by
    rw [hcalc, hhp]; norm_num
  rw [performAttack_of_standing _ _ _ _ _ _ _ _ _ hpos, hcalc, hhp]
  rfl

/-- C14 (code defect): `performAttack` computes the new health from the snapshot captured
by the render and writes it into whatever the cell holds when the update runs. Snorlax
(health 160 of 160, within its bounds) attacks, the player substitutes gengar (health 60
of 60) before the timer of that attack fires, and the timer's `performAttack` then
writes `160 - 51 = 109` into gengar, whose `hp` base stat is 60: the stored combatant no
longer satisfies `currentHp ≤ hp base stat`. -/
theorem C14_stale_write_exceeds_hp_stat :
    hpBaseStat snorlaxPlayer = some 160 ∧ 0 ≤ snorlaxPlayer.currentHp ∧
    snorlaxPlayer.currentHp ≤ 160 ∧
    handlePlayerAttack switchStart tackle ghostTable (1 / 2) (1 / 2) switchStart =
      { state := afterSwitchAttack, timeoutScheduled := true } ∧
    handlePlayerPokemonChange switchTeam 94 sampleMoveDetail attackedArena =
      substitutedArena ∧
    handlePlayerAttackTimeout switchStart ghostTable (1 / 2) (1 / 2) (1 / 2)
        substitutedState =
      { state := staleHitState, timeoutScheduled := true } ∧
    performAttack slamOpponent snorlaxPlayer Setter.setPlayerPokemon slam true ghostTable
        (1 / 2) (1 / 2) { substitutedState with isPlayerTurn := false } = staleHitState ∧
    staleHitState.playerPokemon = some { gengarSubstitute with currentHp := 109 } ∧
    hpBaseStat { gengarSubstitute with currentHp := 109 } = some 60 ∧
    (60 : ℚ) < 109 := by
  refine ⟨by simp [hpBaseStat, snorlaxPlayer, snorlax], by simp [snorlaxPlayer, snorlax],
    by simp [snorlaxPlayer, snorlax], handlePlayerAttack_switchStart,
    handlePlayerPokemonChange_switch, handlePlayerAttackTimeout_staleHit,
    performAttack_staleHit, rfl, by simp [hpBaseStat, gengarSubstitute, gengar],
    by norm_num⟩

/-- C15 (code defect): `performAttack` sets the stored `currentHp` to
`max(0, captured currentHp - damage)`, not to the stored health minus the damage. After
two attacks of the player within the delay both timers fire: the first takes the player
from 60 to 32, and the second, whose render captured the health 60, deals 28 again and
writes `60 - 28 = 32`, where `max(0, 32 - 28)` is 4. -/
theorem C15_second_timer_writes_captured_health :
    handlePlayerAttackTimeout openingState ghostTable (1 / 2) (1 / 2) (1 / 2)
        doubleAttackState =
      { state := firstTimerState, timeoutScheduled := true } ∧
    firstTimerState.playerPokemon.map (fun p => p.currentHp) = some 32 ∧
    handlePlayerAttackTimeout afterOpeningState ghostTable (1 / 2) (1 / 2) (1 / 2)
        firstTimerState =
      { state := secondTimerState, timeoutScheduled := true } ∧
    performAttack weakOpponent gengar Setter.setPlayerPokemon tackle true ghostTable (1 / 2)
        (1 / 2) firstTimerState = secondTimerState ∧
    (calculateDamage weakOpponent gengar (some tackle) ghostTable (1 / 2) (1 / 2)).damage =
      28 ∧
    secondTimerState.playerPokemon.map (fun p => p.currentHp) = some 32 ∧
    max 0 ((32 : ℚ) - ((28 : ℤ) : ℚ)) = 4 := by
  refine ⟨handlePlayerAttackTimeout_first, rfl, handlePlayerAttackTimeout_second,
    performAttack_secondTimer, ?_, rfl, by norm_num⟩
  rw [tackle_on_gengar weakOpponent rfl rfl]

/-- The hit of `slam` (normal, power 80, accuracy 75) on gengar by `slamOpponent`, at the
accuracy roll 50 and the damage draw 1/2:
`floor((22 * 80 * (100 / 60) / 50 + 2) * 0.925) = 56`. -/
theorem slam_on_gengar (defender : Pokemon) (hstats : defender.stats = gengar.stats) :
    calculateDamage slamOpponent defender (some slam) ghostTable (1 / 2) (1 / 2) =
      { damage := 56, hit := true, effectiveness := Effectiveness.neutral } := by
  have hacc : accuracyCheckFails slam (1 / 2) = false := by
    simp [accuracyCheckFails, slam]; norm_num
  have hm : typeMatchup ghostTable slam defender = (1, Effectiveness.neutral) := by
    simp [typeMatchup, ghostTable, slam]
  rw [calculateDamage_of_hit slamOpponent defender slam ghostTable (1 / 2) (1 / 2) 80
    rfl hacc, hm, hstats]
  have hval : baseDamage slamOpponent.level 80 (baseStatOr1 slamOpponent.stats "attack")
      (baseStatOr1 gengar.stats "defense") * (1, Effectiveness.neutral).1 *
        rollFactor (1 / 2) = 6734 / 120 := by
    simp [baseDamage, rollFactor, baseStatOr1, gengar, slamOpponent, ghostPsychic]
    norm_num
  have hfloor : ⌊((6734 : ℚ) / 120)⌋ = 56 := by
    rw [Int.floor_eq_iff]; norm_num
  rw [hval, hfloor]
  simp

/-- At the accuracy roll 90 `slam` (accuracy 75) misses. -/
theorem slam_misses (attacker defender : Pokemon) :
    calculateDamage attacker defender (some slam) ghostTable (9 / 10) (1 / 2) =
      { damage := 0, hit := false, effectiveness := Effectiveness.miss } := by
  apply calculateDamage_of_miss attacker defender slam ghostTable (9 / 10) (1 / 2) 80 rfl
  simp [accuracyCheckFails, slam]
  norm_num

/-- The player's first attack, resolved by the handler of the render `slamOpening`. -/
theorem handlePlayerAttack_slamOpening :
    handlePlayerAttack slamOpening shadowPunch ghostTable (1 / 2) (1 / 2) slamOpening =
      { state := slamAfterOpening, timeoutScheduled := true } := by
  have hcalc := shadowPunch_on_ghostPsychic slamOpponent (1 / 2) rfl rfl
  have hhp : newDefenderHp slamOpponent 70 = 10 := by
    simp [newDefenderHp, slamOpponent, ghostPsychic]; norm_num
  have hpos : 0 < newDefenderHp slamOpponent
      (calculateDamage gengar slamOpponent (some shadowPunch) ghostTable (1 / 2)
        (1 / 2)).damage := by
    rw [hcalc, hhp]; norm_num
  have hp : handlePlayerAttack slamOpening shadowPunch ghostTable (1 / 2) (1 / 2)
      slamOpening =
      { state := (performAttack gengar slamOpponent Setter.setOpponentPokemon
          shadowPunch false ghostTable (1 / 2) (1 / 2) slamOpening),
        timeoutScheduled := true } := rfl
  rw [hp, performAttack_of_standing _ _ _ _ _ _ _ _ _ hpos, hcalc, hhp]
  rfl

/-- A second attack of the player within the delay, resolved by the handler of the render
`slamAfterOpening`. -/
theorem handlePlayerAttack_slamAgain :
    handlePlayerAttack slamAfterOpening shadowPunch ghostTable (1 / 2) (1 / 2)
        slamAfterOpening =
      { state := slamDoubleAttack, timeoutScheduled := true } := by
  have hcalc := shadowPunch_on_ghostPsychic { slamOpponent with currentHp := 10 } (1 / 2)
    rfl rfl
  have hhp : newDefenderHp { slamOpponent with currentHp := 10 } 70 = 0 := by
    simp [newDefenderHp]; norm_num
  have hzero : newDefenderHp { slamOpponent with currentHp := 10 }
      (calculateDamage gengar { slamOpponent with currentHp := 10 } (some shadowPunch)
        ghostTable (1 / 2) (1 / 2)).damage = 0 := by
    rw [hcalc, hhp]
  have hp : handlePlayerAttack slamAfterOpening shadowPunch ghostTable (1 / 2) (1 / 2)
      slamAfterOpening =
      { state := (performAttack gengar { slamOpponent with currentHp := 10 }
          Setter.setOpponentPokemon shadowPunch false ghostTable (1 / 2) (1 / 2)
          slamAfterOpening),
        timeoutScheduled := true } := rfl
  rw [hp, performAttack_of_fainted _ _ _ _ _ _ _ _ _ hzero, hzero, hcalc]
  rfl

/-- The timer of the player's first attack, created by the render `slamOpening` and fired
on the live state `slamDoubleAttack`: `slam` hits. -/
theorem handlePlayerAttackTimeout_slamFirst :
    handlePlayerAttackTimeout slamOpening ghostTable (1 / 2) (1 / 2) (1 / 2)
        slamDoubleAttack =
      { state := slamFirstTimer, timeoutScheduled := true } := by
  have hstand : bothStanding slamOpening.opponentPokemon slamOpening.playerPokemon =
      true := by
    simp [bothStanding, slamOpening, slamOpponent, ghostPsychic, gengar]
  have hcalc := slam_on_gengar gengar rfl
  have hhp : newDefenderHp gengar 56 = 4 := by
    simp [newDefenderHp, gengar]; norm_num
  have hpos : 0 < newDefenderHp gengar
      (calculateDamage slamOpponent gengar (some slam) ghostTable (1 / 2) (1 / 2)).damage := by
    rw [hcalc, hhp]; norm_num
  have hmove : randomMove slamOpponent (1 / 2) = some slam :=
    randomMove_single slamOpponent slam rfl rfl
  unfold handlePlayerAttackTimeout
  rw [if_pos hstand]
  have ho : handleOpponentAttack slamOpening ghostTable (1 / 2) (1 / 2) (1 / 2)
      { slamDoubleAttack with isPlayerTurn := false } =
      { state := (performAttack slamOpponent gengar Setter.setPlayerPokemon slam true
          ghostTable (1 / 2) (1 / 2) { slamDoubleAttack with isPlayerTurn := false }),
        timeoutScheduled := true } := by
    simp only [handleOpponentAttack, slamOpening, hmove, Bool.false_eq_true, if_false]
  rw [ho, performAttack_of_standing _ _ _ _ _ _ _ _ _ hpos, hcalc, hhp]
  rfl

/-- The call of `performAttack` made by the timer of the player's second attack, whose
render `slamAfterOpening` captured the player at 60 health: `slam` misses. -/
theorem performAttack_slamSecond :
    performAttack { slamOpponent with currentHp := 10 } gengar Setter.setPlayerPokemon slam
        true ghostTable (9 / 10) (1 / 2) slamFirstTimer = slamSecondTimer := by
  have hcalc := slam_misses { slamOpponent with currentHp := 10 } gengar
  have hhp : newDefenderHp gengar 0 = 60 := by
    simp [newDefenderHp, gengar]
  have hpos : 0 < newDefenderHp gengar
      (calculateDamage { slamOpponent with currentHp := 10 } gengar (some slam) ghostTable
        (9 / 10) (1 / 2)).damage := by
    rw [hcalc, hhp]; norm_num
  rw [performAttack_of_standing _ _ _ _ _ _ _ _ _ hpos, hcalc, hhp]
  rfl

/-- The timer of the player's second attack, created by the render `slamAfterOpening` and
fired on the live state `slamFirstTimer`: `slam` misses. -/
theorem handlePlayerAttackTimeout_slamSecond :
    handlePlayerAttackTimeout slamAfterOpening ghostTable (1 / 2) (9 / 10) (1 / 2)
        slamFirstTimer =
      { state := slamSecondTimer, timeoutScheduled := true } := by
  have hstand : bothStanding slamAfterOpening.opponentPokemon
      slamAfterOpening.playerPokemon = true := by
    simp [bothStanding, slamAfterOpening, slamOpening, gengar]
  have hmove : randomMove { slamOpponent with currentHp := 10 } (1 / 2) = some slam :=
    randomMove_single { slamOpponent with currentHp := 10 } slam rfl rfl
  unfold handlePlayerAttackTimeout
  rw [if_pos hstand]
  have ho : handleOpponentAttack slamAfterOpening ghostTable (1 / 2) (9 / 10) (1 / 2)
      { slamFirstTimer with isPlayerTurn := false } =
      { state := (performAttack { slamOpponent with currentHp := 10 } gengar
          Setter.setPlayerPokemon slam true ghostTable (9 / 10) (1 / 2)
          { slamFirstTimer with isPlayerTurn := false }),
        timeoutScheduled := true } := by
    simp only [handleOpponentAttack, slamAfterOpening, slamOpening, hmove,
      Bool.false_eq_true, if_false]
  rw [ho]
  have hsame : ({ slamFirstTimer with isPlayerTurn := false } : BattleState) =
      slamFirstTimer := rfl
  rw [hsame, performAttack_slamSecond]

/-- C16 (code defect): a zero-damage outcome writes the health captured by the render,
which need not be the stored one. After two attacks of the player within the delay both
timers fire: the first (a hit of `slam`, 56 damage) leaves the player at 4 health; the
second, whose render captured the player at 60, misses (roll 90 against accuracy 75,
damage 0, `hit = false`) and `performAttack` writes `max(0, 60 - 0) = 60`: the stored
health of a standing defender changes from 4 to 60 on a miss. -/
theorem C16_miss_changes_stored_health :
    handlePlayerAttack slamOpening shadowPunch ghostTable (1 / 2) (1 / 2) slamOpening =
      { state := slamAfterOpening, timeoutScheduled := true } ∧
    handlePlayerAttack slamAfterOpening shadowPunch ghostTable (1 / 2) (1 / 2)
        slamAfterOpening =
      { state := slamDoubleAttack, timeoutScheduled := true } ∧
    handlePlayerAttackTimeout slamOpening ghostTable (1 / 2) (1 / 2) (1 / 2)
        slamDoubleAttack =
      { state := slamFirstTimer, timeoutScheduled := true } ∧
    slamFirstTimer.playerPokemon.map (fun p => p.currentHp) = some 4 ∧
    calculateDamage { slamOpponent with currentHp := 10 } gengar (some slam) ghostTable
        (9 / 10) (1 / 2) =
      { damage := 0, hit := false, effectiveness := Effectiveness.miss } ∧
    handlePlayerAttackTimeout slamAfterOpening ghostTable (1 / 2) (9 / 10) (1 / 2)
        slamFirstTimer =
      { state := slamSecondTimer, timeoutScheduled := true } ∧
    performAttack { slamOpponent with currentHp := 10 } gengar Setter.setPlayerPokemon slam
        true ghostTable (9 / 10) (1 / 2) slamFirstTimer = slamSecondTimer ∧
    slamSecondTimer.playerPokemon.map (fun p => p.currentHp) = some 60 :=
  ⟨handlePlayerAttack_slamOpening, handlePlayerAttack_slamAgain,
    handlePlayerAttackTimeout_slamFirst, rfl, slam_misses _ _,
    handlePlayerAttackTimeout_slamSecond, performAttack_slamSecond, rfl⟩

/-- C20 (code defect): the only call of `handleOpponentAttack` is the one of the timer,
whose handler tests the `battleOver` captured before the player's attack. After the
finishing blow the live `battleOver` is true, yet the call is not rejected: the player's
`currentHp` goes from 60 to 32, an entry is appended to the log and a timer is
scheduled. -/
theorem C20_opponent_attack_not_rejected :
    faintedState.battleOver = true ∧
    handleOpponentAttack finishingState ghostTable (1 / 2) (1 / 2) (1 / 2) faintedState =
      { state := attackedAfterFaintState, timeoutScheduled := true } ∧
    faintedState.playerPokemon.map (fun p => p.currentHp) = some 60 ∧
    attackedAfterFaintState.playerPokemon.map (fun p => p.currentHp) = some 32 ∧
    faintedState.battleLog.length = 2 ∧ attackedAfterFaintState.battleLog.length = 3 :=
  ⟨rfl, handleOpponentAttack_afterFaint, rfl, rfl, rfl, rfl⟩

end PokemonGame
